import Mathlib

/-!
Shallow embedding of the paper_backend reporting API (surname/caste/category
aggregation controllers, surname search, election-results analytics and the
BJP-results listing), together with proofs about the behaviour its
specification claims.

Raw HTTP parameters are untyped in the source (TypeScript `any`), so raw
inputs are modelled by `JSValue`, together with the JavaScript coercions the
code relies on (truthiness, `String(...)`, `parseInt`).  Database tables are
modelled as Lean lists of record structures; the SQL the controllers issue
(grouped SUM / COUNT(DISTINCT) queries, `ORDER BY`, `LEFT JOIN`) is modelled
by executable list functions.
-/

namespace PaperBackend

/-! ## JavaScript value model -/

/-- An untyped JavaScript value as it can reach the validators from
`req.query` / `req.body`: absent (`undefined`), a string, a number, or an
array of strings (Express produces string arrays for repeated query keys). -/
inductive JSValue
  | undefined
  | str (s : String)
  | num (n : Int)
  | arr (elems : List String)
deriving DecidableEq

/-- JavaScript truthiness for the modelled values: `undefined`, `""` and `0`
are falsy; arrays are always truthy. -/
def jsTruthy : JSValue → Bool
  | .undefined => false
  | .str s => if s = "" then false else true
  | .num n => if n = 0 then false else true
  | .arr _ => true

/-- The JavaScript `String(...)` coercion: arrays join with commas. -/
def jsToString : JSValue → String
  | .undefined => "undefined"
  | .str s => s
  | .num n => toString n
  | .arr l => String.intercalate "," l

/-- Whitespace skipped by JavaScript `parseInt`. -/
def isJsSpace (c : Char) : Bool :=
  c = ' ' || c = '\t' || c = '\n' || c = '\r'

/-- Value of a list of decimal digit characters (most significant first). -/
def digitsToNat (cs : List Char) : Nat :=
  cs.foldl (fun a c => a * 10 + (c.toNat - 48)) 0

/-- Leading-digit-run parse: value of the longest digit run at the front of
the list, `none` when there is no leading digit. -/
def digitsVal (cs : List Char) : Option Nat :=
  let ds := cs.takeWhile Char.isDigit
  if ds = [] then none else some (digitsToNat ds)

/-- JavaScript `parseInt(s)` (radix 10): skip leading whitespace, accept an
optional sign, then read the longest leading digit run, ignoring any trailing
garbage; `none` models `NaN`. -/
def jsParseIntChars (cs : List Char) : Option Int :=
  match cs.dropWhile isJsSpace with
  | [] => none
  | c :: rest =>
    if c = '-' then (digitsVal rest).map (fun n => -(n : Int))
    else if c = '+' then (digitsVal rest).map (fun n => (n : Int))
    else (digitsVal (c :: rest)).map (fun n => (n : Int))

/-- JavaScript `parseInt(x)` on a modelled value. -/
def jsParseInt (s : String) : Option Int :=
  jsParseIntChars s.data

/-- JavaScript `x || 0` on a number that is never `NaN`: the identity. -/
def jsNumOr0 (n : Int) : Int :=
  if n = 0 then 0 else n

/-- JavaScript `String.prototype.trim` (character-list model). -/
def jsTrim (s : String) : String :=
  ⟨((s.data.dropWhile Char.isWhitespace).reverse.dropWhile Char.isWhitespace).reverse⟩

/-- JavaScript `toLowerCase` (character-list model). -/
def jsToLower (s : String) : String := ⟨s.data.map Char.toLower⟩

/-- JavaScript `toUpperCase` (character-list model). -/
def jsToUpper (s : String) : String := ⟨s.data.map Char.toUpper⟩

/-- `String.prototype.split(',')`: characters accumulated between commas. -/
def splitCommaAux (cur : List Char) : List Char → List (List Char)
  | [] => [cur.reverse]
  | c :: rest =>
    if c = ',' then cur.reverse :: splitCommaAux [] rest
    else splitCommaAux (c :: cur) rest

/-- JavaScript `s.split(',')`. -/
def jsSplitComma (s : String) : List String :=
  (splitCommaAux [] s.data).map (fun cs => ⟨cs⟩)

/-! ## Input validators (surname.controller.ts, lines 74-172) -/

/-- Result shape `{ isValid, error? }` shared by the validators. -/
structure ValidationResult where
  isValid : Bool
  error : Option String := none
deriving DecidableEq

/-- The `/^\d+$/` test used by the assembly-id validator: non-empty, all
ASCII digits. -/
def assemblyRegexOk (t : String) : Bool :=
  !(t = "") && t.data.all Char.isDigit

/-- Validation of a single assembly-id token (the single-value branch of
`validateAssemblyId`; the input is NOT trimmed there). -/
def singleAssemblyCheck (s : String) : ValidationResult :=
  if !assemblyRegexOk s then
    ⟨false, some "Assembly ID must be numeric"⟩
  else if digitsToNat s.data < 1 || 999999 < digitsToNat s.data then
    ⟨false, some "Assembly ID out of valid range"⟩
  else ⟨true, none⟩

/-- The `for (const id of ids)` loop of `validateAssemblyId` over the
comma-separated tokens; each token is trimmed, regex-checked and
range-checked, stopping at the first failure. -/
def checkAssemblyTokens : List String → ValidationResult
  | [] => ⟨true, none⟩
  | id :: rest =>
    let t := jsTrim id
    if !assemblyRegexOk t then
      ⟨false, some "Assembly IDs must be numeric"⟩
    else if digitsToNat t.data < 1 || 999999 < digitsToNat t.data then
      ⟨false, some "Assembly ID out of valid range"⟩
    else checkAssemblyTokens rest

/-- `validateAssemblyId` (surname controller, lines 74-110).  Falsy input is
accepted (optional parameter), literal `'all'` is accepted, a string
containing a comma is validated token-wise, anything else goes through the
single-value check on its `String(...)` coercion. -/
def validateAssemblyId (v : JSValue) : ValidationResult :=
  if jsTruthy v = false then ⟨true, none⟩
  else if v = JSValue.str "all" then ⟨true, none⟩
  else
    match v with
    | JSValue.str s =>
      if ',' ∈ s.data then checkAssemblyTokens (jsSplitComma s)
      else singleAssemblyCheck s
    | w => singleAssemblyCheck (jsToString w)

/-- Result shape of `validatePagination`. -/
structure PaginationResult where
  isValid : Bool
  error : Option String := none
  page : Option Int := none
  limit : Option Int := none
deriving DecidableEq

/-- `validatePagination` (lines 115-128): `parseInt(String(page || 1))` and
`parseInt(String(limit || 100))`; page must parse to an integer `≥ 1`, limit
to an integer in `[1, 1000]`; parse failure (`NaN`) is rejected. -/
def validatePagination (page limit : JSValue) : PaginationResult :=
  let pageNum := jsParseInt (jsToString (if jsTruthy page then page else JSValue.num 1))
  let limitNum := jsParseInt (jsToString (if jsTruthy limit then limit else JSValue.num 100))
  match pageNum with
  | none => ⟨false, some "Page must be a positive integer", none, none⟩
  | some p =>
    if p < 1 then ⟨false, some "Page must be a positive integer", none, none⟩
    else
      match limitNum with
      | none => ⟨false, some "Limit must be between 1 and 1000", none, none⟩
      | some l =>
        if l < 1 || 1000 < l then ⟨false, some "Limit must be between 1 and 1000", none, none⟩
        else ⟨true, none, some p, some l⟩

/-- A character counted as a word character by the `\b` boundaries of the
SQL-injection denylist regex (`[A-Za-z0-9_]`). -/
def isWordChar (c : Char) : Bool :=
  c.isAlphanum || c = '_'

/-- Does `w` occur at the very front of `l`? -/
def startsWithSeq : List Char → List Char → Bool
  | [], _ => true
  | _ :: _, [] => false
  | a :: as, b :: bs => a = b && startsWithSeq as bs

/-- Does `w` occur as a contiguous subsequence of `l`? -/
def containsSeq (w : List Char) : List Char → Bool
  | [] => decide (w = [])
  | c :: rest => startsWithSeq w (c :: rest) || containsSeq w rest

/-- Word boundary before the scanned position: start of string or a
non-word character. -/
def boundaryBefore : Option Char → Bool
  | none => true
  | some p => !isWordChar p

/-- Word boundary after a matched word: end of string or a non-word
character. -/
def boundaryAfter : List Char → Bool
  | [] => true
  | d :: _ => !isWordChar d

/-- Scan for an occurrence of word `w` delimited by `\b` boundaries,
tracking the previous character. -/
def wordScan (w : List Char) (prev : Option Char) : List Char → Bool
  | [] => false
  | c :: rest =>
    (boundaryBefore prev && startsWithSeq w (c :: rest)
        && boundaryAfter (List.drop w.length (c :: rest)))
      || wordScan w (some c) rest

/-- `\bWORD\b` (case handled by lower-casing the subject first). -/
def hasWord (w : List Char) (cs : List Char) : Bool :=
  wordScan w none cs

/-- The single-quote character (U+0027), written by code point. -/
def quoteChar : Char := Char.ofNat 39

/-- The SQL-injection denylist regex of `validateStringParam` (line 144):
quote, `--`, `;`, `||`, `*`, and the keywords OR AND UNION SELECT DROP
INSERT UPDATE DELETE with word boundaries, case-insensitively. -/
def sqlInjectionTest (s : String) : Bool :=
  let cs := (jsToLower s).data
  containsSeq [quoteChar] cs || containsSeq ['-', '-'] cs || containsSeq [';'] cs
    || containsSeq ['|', '|'] cs || containsSeq ['*'] cs
    || hasWord ['o', 'r'] cs || hasWord ['a', 'n', 'd'] cs
    || hasWord ['u', 'n', 'i', 'o', 'n'] cs
    || hasWord ['s', 'e', 'l', 'e', 'c', 't'] cs
    || hasWord ['d', 'r', 'o', 'p'] cs
    || hasWord ['i', 'n', 's', 'e', 'r', 't'] cs
    || hasWord ['u', 'p', 'd', 'a', 't', 'e'] cs
    || hasWord ['d', 'e', 'l', 'e', 't', 'e'] cs

/-- Result shape of `validateStringParam`. -/
structure StringParamResult where
  isValid : Bool
  error : Option String := none
  value : Option String := none
deriving DecidableEq

/-- A thrown JavaScript exception. -/
inductive JsError
  | typeError (msg : String)
deriving DecidableEq

/-- `validateStringParam` (lines 133-154).  The guard
`!param || param.trim() === ''` calls `.trim()` directly on the raw value, so
a truthy non-string input (number, array) throws a `TypeError`; this is the
one validator that can throw, modelled with `Except`. -/
def validateStringParam (param : JSValue) (paramName : String) (required : Bool) :
    Except JsError StringParamResult :=
  let emptyBranch : Except JsError StringParamResult :=
    if required then .ok ⟨false, some (paramName ++ " is required"), none⟩
    else .ok ⟨true, none, some ""⟩
  match param with
  | JSValue.str s =>
    if s = "" then emptyBranch
    else if jsTrim s = "" then emptyBranch
    else
      let trimmed := jsTrim s
      if sqlInjectionTest trimmed then
        .ok ⟨false, some (paramName ++ " contains invalid characters"), none⟩
      else if 255 < trimmed.length then
        .ok ⟨false, some (paramName ++ " is too long (max 255 characters)"), none⟩
      else .ok ⟨true, none, some trimmed⟩
  | v =>
    if jsTruthy v then .error (.typeError "param.trim is not a function")
    else emptyBranch

/-- Result shape of `validateViewMode`. -/
structure ViewModeResult where
  isValid : Bool
  error : Option String := none
  value : Option String := none
deriving DecidableEq

/-- `validateViewMode` (lines 159-172): falsy defaults to `"separate"`;
otherwise the lower-cased, trimmed coercion must be `separate` or
`combined`. -/
def validateViewMode (v : JSValue) : ViewModeResult :=
  if jsTruthy v = false then ⟨true, none, some "separate"⟩
  else
    let mode := jsTrim (jsToLower (jsToString v))
    if mode = "separate" || mode = "combined" then ⟨true, none, some mode⟩
    else ⟨false, some "view_mode must be either \"separate\" or \"combined\"", none⟩

/-! ## Surname data model and assembly filter -/

/-- A row of `tbl_all_surname`; `surname_caste`, `surname_category` and
`surname_similar` are nullable (the SQL filters on `IS NOT NULL`). -/
structure SurnameRow where
  id : Nat
  surname : String
  surname_caste : Option String
  surname_category : Option String
  surname_similar : Option String
  assembly_no : Int
  count_num : Int
deriving DecidableEq

/-- A row of `assembly_vandan` (also the shape selected by
`getAssemblyDetails`). -/
structure AssemblyInfo where
  id : Nat
  assembly_id : Int
  assembly_name : String
deriving DecidableEq

/-- The structured filter produced by `buildAssemblyFilter`: no constraint,
`assembly_no = n`, or `assembly_no IN ids`. -/
inductive AssemblyFilter
  | noFilter
  | single (n : Int)
  | multiple (ids : List Int)
deriving DecidableEq

/-- `x.includes(',')` on the raw parameter.  (On a truthy non-string,
non-array value the real code would throw; the claims only exercise string
and absent inputs, where this model is exact.) -/
def includesComma : JSValue → Bool
  | .str s => decide (',' ∈ s.data)
  | .arr l => decide ("," ∈ l)
  | _ => false

/-- `buildAssemblyFilter` (surname controller, lines 265-290): skipped for
falsy or `'all'`; a comma list is split and each token `parseInt`ed, a
`NaN` throws `Invalid assembly ID format`; otherwise the single value is
`parseInt`ed with the same `NaN` check.  A thrown error is modelled as
`Except.error` (the controllers catch it and answer 500). -/
def buildAssemblyFilter (assembly_id : JSValue) : Except String AssemblyFilter :=
  if jsTruthy assembly_id = false ∨ assembly_id = JSValue.str "all" then
    .ok .noFilter
  else
    match assembly_id with
    | JSValue.str s =>
      if ',' ∈ s.data then
        match (jsSplitComma s).mapM (fun id => jsParseInt (jsTrim id)) with
        | none => .error "Invalid assembly ID format"
        | some ids => .ok (.multiple ids)
      else
        match jsParseInt s with
        | none => .error "Invalid assembly ID format"
        | some n => .ok (.single n)
    | _ => .error "TypeError"

/-- Which rows the controllers' WHERE clauses select for a filter.  The
branch order mirrors `filter.assembly_no && filter.assembly_no.in` /
`filter.assembly_no`: a `{in: ids}` object is always truthy, a plain number
is truthy only when non-zero (a zero single filter falls through to the
unfiltered query). -/
def filterMatches (f : AssemblyFilter) (r : SurnameRow) : Bool :=
  match f with
  | .multiple ids => decide (r.assembly_no ∈ ids)
  | .single n => if n = 0 then true else decide (r.assembly_no = n)
  | .noFilter => true

/-- `assemblyMap.get(assemblyNo)` built by `getAssemblyDetails`:
`assembly_id` is the natural key of `assembly_vandan`, looked up by
equality. -/
def assemblyLookup (assemblies : List AssemblyInfo) (a : Int) : Option AssemblyInfo :=
  assemblies.find? (fun x => x.assembly_id = a)

/-! ## Grouped SQL aggregation, modelled on lists -/

/-- `SELECT key, SUM(count_num) ... GROUP BY key` over a list of rows:
one output pair per distinct key, carrying the sum of `count_num` over the
rows with that key. -/
def sqlGroupSum {K : Type} [DecidableEq K] (key : SurnameRow → K)
    (l : List SurnameRow) : List (K × Int) :=
  ((l.map key).dedup).map
    (fun k => (k, ((l.filter (fun r => key r = k)).map (·.count_num)).sum))

/-- `SELECT key, COUNT(DISTINCT child) ... GROUP BY key`: per distinct key,
the number of distinct non-null child values (SQL `COUNT(DISTINCT c)`
ignores NULLs). -/
def sqlGroupDistinct {K : Type} [DecidableEq K] (key : SurnameRow → K)
    (child : SurnameRow → Option String) (l : List SurnameRow) : List (K × Nat) :=
  ((l.map key).dedup).map
    (fun k => (k, (((l.filter (fun r => key r = k)).filterMap child).dedup).length))

/-- First-match association lookup with a default, modelling
`map.get(k) || 0` / `obj[k] || 0`. -/
def assocGetD {K β : Type} [DecidableEq K] (l : List (K × β)) (k : K) (d : β) : β :=
  match l.find? (fun kv => kv.1 = k) with
  | some kv => kv.2
  | none => d

/-! ## Category stats (separate / combined / dispatcher) -/

/-- Rows feeding every category aggregation: the assembly filter plus
`surname_category IS NOT NULL AND surname_category != ''`. -/
def catBaseRows (f : AssemblyFilter) (db : List SurnameRow) : List SurnameRow :=
  db.filter (fun r =>
    filterMatches f r &&
      (match r.surname_category with
       | some c => decide (c ≠ "")
       | none => false))

/-- The (non-null) category of a filtered row. -/
def rowCat (r : SurnameRow) : String := (r.surname_category).getD ""

/-- One row of the separate-mode category aggregate
(`surname_category, assembly_no, SUM(count_num)`). -/
structure CatGroupRow where
  surname_category : String
  assembly_no : Int
  total_count : Int
deriving DecidableEq

/-- `ORDER BY assembly_no ASC` on the grouped category rows (stable). -/
def catAssemblyAsc (a b : CatGroupRow) : Prop := a.assembly_no ≤ b.assembly_no

instance : DecidableRel catAssemblyAsc := fun _ _ => inferInstanceAs (Decidable (_ ≤ _))

/-- The separate-mode category query: group the filtered rows by
(category, assembly), sum `count_num`, order by assembly ascending. -/
def catGroupsSorted (f : AssemblyFilter) (db : List SurnameRow) : List CatGroupRow :=
  List.insertionSort catAssemblyAsc
    ((sqlGroupSum (fun r => (rowCat r, r.assembly_no)) (catBaseRows f db)).map
      (fun kg => ⟨kg.1.1, kg.1.2, kg.2⟩))

/-- The distinct-caste counts per (assembly, category) used for
`total_cast` in separate mode. -/
def catCasteCounts (f : AssemblyFilter) (db : List SurnameRow) : List ((Int × String) × Nat) :=
  sqlGroupDistinct (fun r => (r.assembly_no, rowCat r)) (·.surname_caste) (catBaseRows f db)

/-- One `stats` entry of the separate-mode category response. -/
structure CatStat where
  surname_category : String
  total_count : Int
  total_cast : Nat
deriving DecidableEq

/-- One per-assembly block of the separate-mode category response;
`assembly` is `assemblyMap.get(assemblyNo)` and may be missing. -/
structure CatBlock where
  assembly : Option AssemblyInfo
  stats : List CatStat
deriving DecidableEq

/-- `resultByAssembly` / `Object.values`: the sorted grouped rows are bucketed
per assembly (keys of a JS object with numeric keys iterate ascending, which
coincides with the `ORDER BY assembly_no ASC` bucket order), each stat row
paired with its distinct-caste count (`casteCountMap.get(key) || 0`). -/
def catBlocks (assemblies : List AssemblyInfo) (f : AssemblyFilter)
    (db : List SurnameRow) : List CatBlock :=
  let stats := catGroupsSorted f db
  let ccounts := catCasteCounts f db
  ((stats.map (·.assembly_no)).dedup).map (fun a =>
    { assembly := assemblyLookup assemblies a
      stats := (stats.filter (fun g => g.assembly_no = a)).map (fun g =>
        ⟨g.surname_category, g.total_count, assocGetD ccounts (a, g.surname_category) 0⟩) })

/-- One `stats` entry of the combined-mode category response. -/
structure CatCombStat where
  surname_category : String
  total_count : Int
  total_cast : Nat
deriving DecidableEq

/-- `sort((a, b) => b.total_count - a.total_count)`: count descending
(stable). -/
def catCombDesc (a b : CatCombStat) : Prop := b.total_count ≤ a.total_count

instance : DecidableRel catCombDesc := fun _ _ => inferInstanceAs (Decidable (_ ≤ _))

/-- The combined-mode category groups (`GROUP BY surname_category` only). -/
def catCombGroups (f : AssemblyFilter) (db : List SurnameRow) : List (String × Int) :=
  sqlGroupSum rowCat (catBaseRows f db)

/-- Distinct-caste counts per category for combined mode. -/
def catCombCasteCounts (f : AssemblyFilter) (db : List SurnameRow) : List (String × Nat) :=
  sqlGroupDistinct rowCat (·.surname_caste) (catBaseRows f db)

/-- The combined-mode `statsArray`: `Number(total_count) || 0`, the
distinct-caste count (`|| 0`), sorted by count descending. -/
def catCombArray (f : AssemblyFilter) (db : List SurnameRow) : List CatCombStat :=
  List.insertionSort catCombDesc
    ((catCombGroups f db).map (fun kg =>
      ⟨kg.1, jsNumOr0 kg.2, assocGetD (catCombCasteCounts f db) kg.1 0⟩))

/-- The synthetic assembly of every combined response. -/
def combinedAssembly : AssemblyInfo := ⟨0, 0, "All Assemblies Combined"⟩

/-- Responses of the category family.  `okSingle` is the unwrapped
single-assembly object (`result[0] || {assembly: null, stats: []}`),
`okCombined` is the `isCombined: true` object. -/
inductive CatResponse
  | badRequest (error message : String)
  | okSingle (block : CatBlock)
  | okList (blocks : List CatBlock)
  | okCombined (assembly : AssemblyInfo) (stats : List CatCombStat)
  | serverError (error message : String)
deriving DecidableEq

/-- HTTP status of a category-family response. -/
def catStatus : CatResponse → Nat
  | .badRequest _ _ => 400
  | .serverError _ _ => 500
  | _ => 200

/-- The unwrap condition of the separate controllers:
`assembly_id && assembly_id !== 'all' && !assembly_id.includes(',')`. -/
def singleUnwrap (assembly_id : JSValue) : Bool :=
  jsTruthy assembly_id && !(assembly_id = JSValue.str "all") && !(includesComma assembly_id)

/-- `getCategoryStatsSeparate` (lines 315-472). -/
def getCategoryStatsSeparate (assemblies : List AssemblyInfo) (db : List SurnameRow)
    (assembly_id : JSValue) : CatResponse :=
  let av := validateAssemblyId assembly_id
  if av.isValid = false then .badRequest "Invalid assembly_id" (av.error.getD "")
  else
    match buildAssemblyFilter assembly_id with
    | .error m => .serverError "Failed to fetch category statistics" m
    | .ok f =>
      let blocks := catBlocks assemblies f db
      if singleUnwrap assembly_id then .okSingle ((blocks.head?).getD ⟨none, []⟩)
      else .okList blocks

/-- `getCategoryStatsCombined` (lines 477-612). -/
def getCategoryStatsCombined (db : List SurnameRow) (assembly_id : JSValue) : CatResponse :=
  let av := validateAssemblyId assembly_id
  if av.isValid = false then .badRequest "Invalid assembly_id" (av.error.getD "")
  else
    match buildAssemblyFilter assembly_id with
    | .error m => .serverError "Failed to fetch combined category statistics" m
    | .ok f => .okCombined combinedAssembly (catCombArray f db)

/-- `getAllCategoryStatus` (lines 617-647): validate, then
`shouldCombine = view_mode === 'combined' && (assembly_id === 'all' ||
(assembly_id && assembly_id.includes(',')))`; the destructuring default
`view_mode = 'separate'` applies only to `undefined`. -/
def getAllCategoryStatus (assemblies : List AssemblyInfo) (db : List SurnameRow)
    (assembly_id view_mode : JSValue) : CatResponse :=
  let vm := if view_mode = JSValue.undefined then JSValue.str "separate" else view_mode
  let av := validateAssemblyId assembly_id
  if av.isValid = false then .badRequest "Invalid assembly_id" (av.error.getD "")
  else
    let vv := validateViewMode vm
    if vv.isValid = false then .badRequest "Invalid view_mode" (vv.error.getD "")
    else
      if vv.value = some "combined"
          ∧ (assembly_id = JSValue.str "all"
             ∨ (jsTruthy assembly_id = true ∧ includesComma assembly_id = true)) then
        getCategoryStatsCombined db assembly_id
      else getCategoryStatsSeparate assemblies db assembly_id

/-! ## Caste stats (separate / combined / dispatcher), lines 734-1063 -/

/-- Rows feeding the caste aggregations (`surname_caste IS NOT NULL AND
surname_caste != ''` plus the assembly filter). -/
def casteBaseRows (f : AssemblyFilter) (db : List SurnameRow) : List SurnameRow :=
  db.filter (fun r =>
    filterMatches f r &&
      (match r.surname_caste with
       | some c => decide (c ≠ "")
       | none => false))

/-- The (non-null) caste of a filtered row. -/
def rowCaste (r : SurnameRow) : String := (r.surname_caste).getD ""

/-- One row of the separate-mode caste aggregate. -/
structure CasteGroupRow where
  surname_caste : String
  assembly_no : Int
  total_count : Int
deriving DecidableEq

/-- `ORDER BY assembly_no ASC` on the grouped caste rows. -/
def casteAssemblyAsc (a b : CasteGroupRow) : Prop := a.assembly_no ≤ b.assembly_no

instance : DecidableRel casteAssemblyAsc := fun _ _ => inferInstanceAs (Decidable (_ ≤ _))

/-- Separate-mode caste query: group by (caste, assembly), sum, order by
assembly ascending. -/
def casteGroupsSorted (f : AssemblyFilter) (db : List SurnameRow) : List CasteGroupRow :=
  List.insertionSort casteAssemblyAsc
    ((sqlGroupSum (fun r => (rowCaste r, r.assembly_no)) (casteBaseRows f db)).map
      (fun kg => ⟨kg.1.1, kg.1.2, kg.2⟩))

/-- Distinct `surname_similar` counts per (assembly, caste). -/
def casteSimilarCounts (f : AssemblyFilter) (db : List SurnameRow) :
    List ((Int × String) × Nat) :=
  sqlGroupDistinct (fun r => (r.assembly_no, rowCaste r)) (·.surname_similar)
    (casteBaseRows f db)

/-- One `stats` entry of the separate-mode caste response. -/
structure CasteStat where
  surname_caste : String
  total_count : Int
  total_similar : Nat
deriving DecidableEq

/-- One per-assembly block of the separate-mode caste response. -/
structure CasteBlock where
  assembly : Option AssemblyInfo
  stats : List CasteStat
deriving DecidableEq

/-- Per-assembly bucketing of the sorted caste groups. -/
def casteBlocks (assemblies : List AssemblyInfo) (f : AssemblyFilter)
    (db : List SurnameRow) : List CasteBlock :=
  let stats := casteGroupsSorted f db
  let scounts := casteSimilarCounts f db
  ((stats.map (·.assembly_no)).dedup).map (fun a =>
    { assembly := assemblyLookup assemblies a
      stats := (stats.filter (fun g => g.assembly_no = a)).map (fun g =>
        ⟨g.surname_caste, g.total_count, assocGetD scounts (a, g.surname_caste) 0⟩) })

/-- One `stats` entry of the combined-mode caste response. -/
structure CasteCombStat where
  surname_caste : String
  total_count : Int
  total_similar : Nat
deriving DecidableEq

/-- JS `sort((a, b) => b.total_count - a.total_count)` for caste. -/
def casteCombDesc (a b : CasteCombStat) : Prop := b.total_count ≤ a.total_count

instance : DecidableRel casteCombDesc := fun _ _ => inferInstanceAs (Decidable (_ ≤ _))

/-- Combined-mode caste groups (`GROUP BY surname_caste`). -/
def casteCombGroups (f : AssemblyFilter) (db : List SurnameRow) : List (String × Int) :=
  sqlGroupSum rowCaste (casteBaseRows f db)

/-- Distinct `surname_similar` counts per caste for combined mode. -/
def casteCombSimilarCounts (f : AssemblyFilter) (db : List SurnameRow) :
    List (String × Nat) :=
  sqlGroupDistinct rowCaste (·.surname_similar) (casteBaseRows f db)

/-- The combined-mode caste `statsArray`. -/
def casteCombArray (f : AssemblyFilter) (db : List SurnameRow) : List CasteCombStat :=
  List.insertionSort casteCombDesc
    ((casteCombGroups f db).map (fun kg =>
      ⟨kg.1, jsNumOr0 kg.2, assocGetD (casteCombSimilarCounts f db) kg.1 0⟩))

/-- Responses of the caste family. -/
inductive CasteResponse
  | badRequest (error message : String)
  | okSingle (block : CasteBlock)
  | okList (blocks : List CasteBlock)
  | okCombined (assembly : AssemblyInfo) (stats : List CasteCombStat)
  | serverError (error message : String)
deriving DecidableEq

/-- HTTP status of a caste-family response. -/
def casteStatus : CasteResponse → Nat
  | .badRequest _ _ => 400
  | .serverError _ _ => 500
  | _ => 200

/-- `getCasteStatsSeparate` (lines 734-890). -/
def getCasteStatsSeparate (assemblies : List AssemblyInfo) (db : List SurnameRow)
    (assembly_id : JSValue) : CasteResponse :=
  let av := validateAssemblyId assembly_id
  if av.isValid = false then .badRequest "Invalid assembly_id" (av.error.getD "")
  else
    match buildAssemblyFilter assembly_id with
    | .error m => .serverError "Failed to fetch caste statistics" m
    | .ok f =>
      let blocks := casteBlocks assemblies f db
      if singleUnwrap assembly_id then .okSingle ((blocks.head?).getD ⟨none, []⟩)
      else .okList blocks

/-- `getCasteStatsCombined` (lines 895-1028). -/
def getCasteStatsCombined (db : List SurnameRow) (assembly_id : JSValue) : CasteResponse :=
  let av := validateAssemblyId assembly_id
  if av.isValid = false then .badRequest "Invalid assembly_id" (av.error.getD "")
  else
    match buildAssemblyFilter assembly_id with
    | .error m => .serverError "Failed to fetch combined caste statistics" m
    | .ok f => .okCombined combinedAssembly (casteCombArray f db)

/-- `getAllCasteStatus` (lines 1033-1063): same dispatch rule as the
category family. -/
def getAllCasteStatus (assemblies : List AssemblyInfo) (db : List SurnameRow)
    (assembly_id view_mode : JSValue) : CasteResponse :=
  let vm := if view_mode = JSValue.undefined then JSValue.str "separate" else view_mode
  let av := validateAssemblyId assembly_id
  if av.isValid = false then .badRequest "Invalid assembly_id" (av.error.getD "")
  else
    let vv := validateViewMode vm
    if vv.isValid = false then .badRequest "Invalid view_mode" (vv.error.getD "")
    else
      if vv.value = some "combined"
          ∧ (assembly_id = JSValue.str "all"
             ∨ (jsTruthy assembly_id = true ∧ includesComma assembly_id = true)) then
        getCasteStatsCombined db assembly_id
      else getCasteStatsSeparate assemblies db assembly_id

/-! ## Surname-similar stats (separate / combined / dispatcher), lines 1150-1375 -/

/-- Rows feeding the surname-similar aggregations. -/
def simBaseRows (f : AssemblyFilter) (db : List SurnameRow) : List SurnameRow :=
  db.filter (fun r =>
    filterMatches f r &&
      (match r.surname_similar with
       | some c => decide (c ≠ "")
       | none => false))

/-- The (non-null) similar-group of a filtered row. -/
def rowSim (r : SurnameRow) : String := (r.surname_similar).getD ""

/-- One row of the separate-mode similar aggregate. -/
structure SimGroupRow where
  surname_similar : String
  assembly_no : Int
  total_count : Int
deriving DecidableEq

/-- `ORDER BY assembly_no ASC, total_count DESC` of the separate similar
query (this family alone orders by count inside an assembly). -/
def simAssemblyAscCountDesc (a b : SimGroupRow) : Prop :=
  a.assembly_no < b.assembly_no
    ∨ (a.assembly_no = b.assembly_no ∧ b.total_count ≤ a.total_count)

instance : DecidableRel simAssemblyAscCountDesc := fun _ _ =>
  inferInstanceAs (Decidable (_ ∨ _))

/-- Separate-mode similar query: group by (similar, assembly), sum, order by
assembly ascending then count descending. -/
def simGroupsSorted (f : AssemblyFilter) (db : List SurnameRow) : List SimGroupRow :=
  List.insertionSort simAssemblyAscCountDesc
    ((sqlGroupSum (fun r => (rowSim r, r.assembly_no)) (simBaseRows f db)).map
      (fun kg => ⟨kg.1.1, kg.1.2, kg.2⟩))

/-- One `stats` entry of the separate-mode similar response (no child
breadth metric in this family). -/
structure SimStat where
  surname_similar : String
  total_count : Int
deriving DecidableEq

/-- One per-assembly block of the separate-mode similar response. -/
structure SimBlock where
  assembly : Option AssemblyInfo
  stats : List SimStat
deriving DecidableEq

/-- Per-assembly bucketing of the sorted similar groups. -/
def simBlocks (assemblies : List AssemblyInfo) (f : AssemblyFilter)
    (db : List SurnameRow) : List SimBlock :=
  let stats := simGroupsSorted f db
  ((stats.map (·.assembly_no)).dedup).map (fun a =>
    { assembly := assemblyLookup assemblies a
      stats := (stats.filter (fun g => g.assembly_no = a)).map (fun g =>
        ⟨g.surname_similar, g.total_count⟩) })

/-- One `stats` entry of the combined-mode similar response. -/
structure SimCombStat where
  surname_similar : String
  total_count : Int
deriving DecidableEq

/-- `ORDER BY total_count DESC` of the combined similar SQL (the sort
happens in SQL here, not in JS). -/
def simCombDesc (a b : SimCombStat) : Prop := b.total_count ≤ a.total_count

instance : DecidableRel simCombDesc := fun _ _ => inferInstanceAs (Decidable (_ ≤ _))

/-- Combined-mode similar groups (`GROUP BY surname_similar`). -/
def simCombGroups (f : AssemblyFilter) (db : List SurnameRow) : List (String × Int) :=
  sqlGroupSum rowSim (simBaseRows f db)

/-- The combined-mode similar `statsArray`
(`Number(total_count) || 0`, already sorted by the SQL). -/
def simCombArray (f : AssemblyFilter) (db : List SurnameRow) : List SimCombStat :=
  List.insertionSort simCombDesc
    ((simCombGroups f db).map (fun kg => ⟨kg.1, jsNumOr0 kg.2⟩))

/-- Responses of the surname-similar family. -/
inductive SimResponse
  | badRequest (error message : String)
  | okSingle (block : SimBlock)
  | okList (blocks : List SimBlock)
  | okCombined (assembly : AssemblyInfo) (stats : List SimCombStat)
  | serverError (error message : String)
deriving DecidableEq

/-- HTTP status of a similar-family response. -/
def simStatus : SimResponse → Nat
  | .badRequest _ _ => 400
  | .serverError _ _ => 500
  | _ => 200

/-- `getSurnameSimilarStatsSeparate` (lines 1150-1250). -/
def getSurnameSimilarStatsSeparate (assemblies : List AssemblyInfo)
    (db : List SurnameRow) (assembly_id : JSValue) : SimResponse :=
  let av := validateAssemblyId assembly_id
  if av.isValid = false then .badRequest "Invalid assembly_id" (av.error.getD "")
  else
    match buildAssemblyFilter assembly_id with
    | .error m => .serverError "Failed to fetch surname similar statistics" m
    | .ok f =>
      let blocks := simBlocks assemblies f db
      if singleUnwrap assembly_id then .okSingle ((blocks.head?).getD ⟨none, []⟩)
      else .okList blocks

/-- `getSurnameSimilarStatsCombined` (lines 1255-1340). -/
def getSurnameSimilarStatsCombined (db : List SurnameRow) (assembly_id : JSValue) :
    SimResponse :=
  let av := validateAssemblyId assembly_id
  if av.isValid = false then .badRequest "Invalid assembly_id" (av.error.getD "")
  else
    match buildAssemblyFilter assembly_id with
    | .error m => .serverError "Failed to fetch combined surname similar statistics" m
    | .ok f => .okCombined combinedAssembly (simCombArray f db)

/-- `getAllSurnameSimilarStats` (lines 1345-1375): same dispatch rule. -/
def getAllSurnameSimilarStats (assemblies : List AssemblyInfo) (db : List SurnameRow)
    (assembly_id view_mode : JSValue) : SimResponse :=
  let vm := if view_mode = JSValue.undefined then JSValue.str "separate" else view_mode
  let av := validateAssemblyId assembly_id
  if av.isValid = false then .badRequest "Invalid assembly_id" (av.error.getD "")
  else
    let vv := validateViewMode vm
    if vv.isValid = false then .badRequest "Invalid view_mode" (vv.error.getD "")
    else
      if vv.value = some "combined"
          ∧ (assembly_id = JSValue.str "all"
             ∨ (jsTruthy assembly_id = true ∧ includesComma assembly_id = true)) then
        getSurnameSimilarStatsCombined db assembly_id
      else getSurnameSimilarStatsSeparate assemblies db assembly_id

/-! ## Surname search (`POST /search`, getSurnames, lines 189-258) -/

/-- The fields selected by the search query (`updation_date` and
`surname_similar` are excluded by the `select`). -/
structure SearchRow where
  id : Nat
  surname : String
  surname_caste : Option String
  surname_category : Option String
  assembly_no : Int
  count_num : Int
deriving DecidableEq

/-- Projection of a table row onto the selected fields. -/
def toSearchRow (r : SurnameRow) : SearchRow :=
  ⟨r.id, r.surname, r.surname_caste, r.surname_category, r.assembly_no, r.count_num⟩

/-- `orderBy: { count_num: 'desc' }` (stable). -/
def countDesc (a b : SurnameRow) : Prop := b.count_num ≤ a.count_num

instance : DecidableRel countDesc := fun _ _ => inferInstanceAs (Decidable (_ ≤ _))

/-- The search `whereClause`: `assembly_no = parseInt(assembly_id)` when
`assembly_id && assembly_id !== "" && assembly_id !== "all"`, otherwise no
filter.  A `NaN` comparison value matches no row. -/
def searchFiltered (db : List SurnameRow) (assembly_id : JSValue) : List SurnameRow :=
  if jsTruthy assembly_id ∧ assembly_id ≠ JSValue.str "" ∧ assembly_id ≠ JSValue.str "all" then
    match jsParseInt (jsToString assembly_id) with
    | some n => db.filter (fun r => r.assembly_no = n)
    | none => []
  else db

/-- The filtered rows sorted by `count_num` descending. -/
def searchSorted (db : List SurnameRow) (assembly_id : JSValue) : List SurnameRow :=
  List.insertionSort countDesc (searchFiltered db assembly_id)

/-- `Math.ceil(a / b)` on naturals (`b ≥ 1`). -/
def ceilDiv (a b : Nat) : Nat := (a + b - 1) / b

/-- Responses of `getSurnames`. -/
inductive SearchResponse
  | badRequest (message : String)
  | ok (count : Nat) (totalPages : Nat) (currentPage : Int) (data : List SearchRow)
deriving DecidableEq

/-- `getSurnames` (lines 189-258): body destructuring defaults
(`page = 1`, `limit = 100` for `undefined`), both validators, then
`count` + `findMany({take, skip, orderBy: count_num desc})`. -/
def getSurnames (db : List SurnameRow) (assembly_id page limit : JSValue) :
    SearchResponse :=
  let page := if page = JSValue.undefined then JSValue.num 1 else page
  let limit := if limit = JSValue.undefined then JSValue.num 100 else limit
  let av := validateAssemblyId assembly_id
  if av.isValid = false then .badRequest (av.error.getD "")
  else
    let pv := validatePagination page limit
    if pv.isValid = false then .badRequest (pv.error.getD "")
    else
      let pageNum := pv.page.getD 1
      let limitNum := pv.limit.getD 100
      let filtered := searchFiltered db assembly_id
      let totalCount := filtered.length
      let skip := (pageNum - 1) * limitNum
      let data := (((searchSorted db assembly_id).drop skip.toNat).take limitNum.toNat).map
        toSearchRow
      .ok totalCount (ceilDiv totalCount limitNum.toNat) pageNum data

/-! ## Election analytics (`GET /analytics/:position`, lines 9-86) -/

/-- A row of `election_results_col`: one seat-count column per tracked
party, each nullable. -/
structure ElectionResultRow where
  position : String
  electionyear : Nat
  electionname : String
  bjp_seat : Option Int
  inc_seat : Option Int
  bsp_seat : Option Int
  jccj_seat : Option Int
  ggp_seat : Option Int
  cpi_seat : Option Int
  aap_seat : Option Int
  other_seat : Option Int
deriving DecidableEq

/-- A tracked party of the pivot (name, seat-column key, chart colour). -/
structure PartyDef where
  name : String
  key : String
  color : String
deriving DecidableEq

/-- The fixed party table of `transformData`, in source order. -/
def partyDefs : List PartyDef :=
  [⟨"BJP", "bjp_seat", "#FF8C00"⟩,
   ⟨"INC", "inc_seat", "#228B22"⟩,
   ⟨"BSP", "bsp_seat", "#4169E1"⟩,
   ⟨"JCCJ", "jccj_seat", "#FF1493"⟩,
   ⟨"GGP", "ggp_seat", "#9C27B0"⟩,
   ⟨"CPI", "cpi_seat", "#F44336"⟩,
   ⟨"AAP", "aap_seat", "#00BCD4"⟩,
   ⟨"OTHER", "other_seat", "#696969"⟩]

/-- `result[party.key]`: dynamic access to the seat column; an unknown key
reads `undefined` (modelled `none`). -/
def getSeatField (r : ElectionResultRow) (key : String) : Option Int :=
  if key = "bjp_seat" then r.bjp_seat
  else if key = "inc_seat" then r.inc_seat
  else if key = "bsp_seat" then r.bsp_seat
  else if key = "jccj_seat" then r.jccj_seat
  else if key = "ggp_seat" then r.ggp_seat
  else if key = "cpi_seat" then r.cpi_seat
  else if key = "aap_seat" then r.aap_seat
  else if key = "other_seat" then r.other_seat
  else none

/-- `seatValue ? parseInt(seatValue) : null`: null and 0 are falsy, so both
become null; any other value is kept. -/
def jsSeatVal : Option Int → Option Int
  | none => none
  | some n => if n = 0 then none else some n

/-- UTF-16 code-unit comparison of two character lists (the default
comparator of JavaScript `Array.prototype.sort` compares the decimal string
forms this way). -/
def charListLe : List Char → List Char → Bool
  | [], _ => true
  | _ :: _, [] => false
  | a :: as, b :: bs =>
    if a.toNat = b.toNat then charListLe as bs else decide (a.toNat < b.toNat)

/-- String comparison used by the default JS sort. -/
def strLeB (a b : String) : Bool := charListLe a.data b.data

/-- The order in which JavaScript `[...].sort()` (no comparator) leaves
numbers: lexicographic on their decimal string forms. -/
def natStrLe (a b : Nat) : Prop := strLeB (toString a) (toString b) = true

instance : DecidableRel natStrLe := fun _ _ => inferInstanceAs (Decidable (_ = true))

/-- Ascending numeric order of the integer-like keys of a JS object. -/
def natAsc (a b : Nat) : Prop := a ≤ b

instance : DecidableRel natAsc := fun _ _ => inferInstanceAs (Decidable (_ ≤ _))

/-- The `years` object built per party: integer-like object keys iterate in
ascending numeric order, and a repeated `electionyear` overwrites (last row
wins). -/
def yearsObject (key : String) (data : List ElectionResultRow) :
    List (Nat × Option Int) :=
  (List.insertionSort natAsc ((data.map (·.electionyear)).dedup)).map (fun y =>
    (y, match (data.filter (fun r => r.electionyear = y)).getLast? with
        | some r => jsSeatVal (getSeatField r key)
        | none => none))

/-- One series of the pivot. -/
structure PartySeries where
  party : String
  color : String
  years : List (Nat × Option Int)
deriving DecidableEq

/-- `transformData` (lines 41-66): one series per tracked party. -/
def transformData (data : List ElectionResultRow) : List PartySeries :=
  partyDefs.map (fun p => ⟨p.name, p.color, yearsObject p.key data⟩)

/-- `orderBy: { electionyear: 'asc' }` (stable). -/
def yearAsc (a b : ElectionResultRow) : Prop := a.electionyear ≤ b.electionyear

instance : DecidableRel yearAsc := fun _ _ => inferInstanceAs (Decidable (_ ≤ _))

/-- The result rows for a position, year ascending. -/
def resultsOf (db : List ElectionResultRow) (pos : String) : List ElectionResultRow :=
  List.insertionSort yearAsc (db.filter (fun r => r.position = pos))

/-- The assembly-election partition (`electionname.toUpperCase() === 'AC'`). -/
def acRowsOf (db : List ElectionResultRow) (pos : String) : List ElectionResultRow :=
  (resultsOf db pos).filter (fun r => jsToUpper r.electionname = "AC")

/-- The parliament-election partition. -/
def peRowsOf (db : List ElectionResultRow) (pos : String) : List ElectionResultRow :=
  (resultsOf db pos).filter (fun r => jsToUpper r.electionname = "PE")

/-- `[...new Set(results.map(r => r.electionyear))].sort()`: distinct years
in the comparator-less JS sort order (lexicographic on decimal strings). -/
def yearsListOf (db : List ElectionResultRow) (pos : String) : List Nat :=
  List.insertionSort natStrLe (((resultsOf db pos).map (·.electionyear)).dedup)

/-- Responses of `getPositionWiseAnalytics`. -/
inductive AnalyticsResponse
  | badRequest (message : String)
  | notFound (message : String)
  | ok (position : String) (assembly parliament : List PartySeries) (years : List Nat)
deriving DecidableEq

/-- HTTP status of an analytics response. -/
def analyticsStatus : AnalyticsResponse → Nat
  | .badRequest _ => 400
  | .notFound _ => 404
  | .ok _ _ _ _ => 200

/-- The `years` list of an analytics response (empty on failure). -/
def analyticsYears : AnalyticsResponse → List Nat
  | .ok _ _ _ years => years
  | _ => []

/-- `getPositionWiseAnalytics` (electionResults controller, lines 9-86). -/
def getPositionWiseAnalytics (db : List ElectionResultRow) (position : JSValue) :
    AnalyticsResponse :=
  if jsTruthy position = false then .badRequest "Position is required"
  else
    let pos := jsToString position
    if resultsOf db pos = [] then .notFound ("No results found for position: " ++ pos)
    else
      .ok (jsToUpper pos) (transformData (acRowsOf db pos)) (transformData (peRowsOf db pos))
        (yearsListOf db pos)

/-! ## Position details (`GET /details`, getPositionDetailsByParty, lines 92-167) -/

/-- A row of `tbl_result_party_position` / `tbl_result_party_position_pe`:
one party-holder column per (year, election-type) pair. -/
structure PartyPosRow where
  position : Int
  ac_no : Int
  ele_ae_2008 : Option String
  ele_pe_2009 : Option String
  ele_ae_2013 : Option String
  ele_pe_2014 : Option String
  ele_ae_2018 : Option String
  ele_pe_2019 : Option String
deriving DecidableEq

/-- The two physical tables, selected by election type. -/
inductive PPTable
  | ac
  | pe
deriving DecidableEq

/-- The own keys of the `yearColumnMap` object literal (lines 104-111). -/
def yearColumnMap (year : String) : Option String :=
  if year = "2008" then some "ele_ae_2008"
  else if year = "2009" then some "ele_pe_2009"
  else if year = "2013" then some "ele_ae_2013"
  else if year = "2014" then some "ele_pe_2014"
  else if year = "2018" then some "ele_ae_2018"
  else if year = "2019" then some "ele_pe_2019"
  else none

/-- Property names inherited by every plain object from `Object.prototype`
(including the `__proto__` accessor): a lookup `obj[key]` that misses the
object's own keys continues along the prototype chain, and for these keys
returns an inherited function (for `__proto__`, the prototype object) — in
every case a truthy value. -/
def objectPrototypeKeys : List String :=
  ["constructor", "hasOwnProperty", "isPrototypeOf", "propertyIsEnumerable",
   "toLocaleString", "toString", "valueOf", "__defineGetter__",
   "__defineSetter__", "__lookupGetter__", "__lookupSetter__", "__proto__"]

/-- The text that ends up interpolated into the raw SQL when the lookup hit
an inherited prototype member: the JS string form of that value. -/
def protoFnString (name : String) : String :=
  if name = "__proto__" then "[object Object]"
  else "function " ++ name ++ "() \x7b [native code] \x7d"

/-- Result of the plain-object lookup `yearColumnMap[year]`, prototype chain
included. -/
inductive YearLookup
  | mapped (col : String)
  | protoFn (name : String)
  | absent
deriving DecidableEq

/-- `yearColumnMap[year]`: an own key yields its column string; a key naming
an inherited `Object.prototype` member yields that truthy inherited value
(so the `if (!columnName)` check passes); any other key is absent
(`undefined`). -/
def yearColumnGet (year : String) : YearLookup :=
  match yearColumnMap year with
  | some col => .mapped col
  | none => if year ∈ objectPrototypeKeys then .protoFn year else .absent

/-- Dynamic column read `p.${columnName}` for the six mapped columns. -/
def colValue (r : PartyPosRow) (col : String) : Option String :=
  if col = "ele_ae_2008" then r.ele_ae_2008
  else if col = "ele_pe_2009" then r.ele_pe_2009
  else if col = "ele_ae_2013" then r.ele_ae_2013
  else if col = "ele_pe_2014" then r.ele_pe_2014
  else if col = "ele_ae_2018" then r.ele_ae_2018
  else if col = "ele_pe_2019" then r.ele_pe_2019
  else none

/-- The query the endpoint assembles: table, year column, parsed position and
upper-cased party. -/
structure DetailsQuery where
  table : PPTable
  columnName : String
  position : Option Int
  party : String
deriving DecidableEq

/-- Parameter validation and query assembly of `getPositionDetailsByParty`:
missing (falsy) parameters produce the 400 `required` message; the
`yearColumnMap[year]` lookup follows JS plain-object semantics, so only a
key that is neither mapped nor an inherited `Object.prototype` member fails
the truthiness check and produces the 400 `Invalid year` message — an
inherited member's string form becomes the column text; the table is chosen
by `electionType.toUpperCase() === 'AC'` alone. -/
def detailsPlan (position party year electionType : JSValue) :
    Except String DetailsQuery :=
  if jsTruthy position = false ∨ jsTruthy party = false ∨ jsTruthy year = false
      ∨ jsTruthy electionType = false then
    .error "Position, party, year, and electionType are required"
  else
    match yearColumnGet (jsToString year) with
    | .absent => .error ("Invalid year: " ++ jsToString year)
    | .mapped col =>
      .ok
        { table := if jsToUpper (jsToString electionType) = "AC" then .ac else .pe
          columnName := col
          position := jsParseInt (jsToString position)
          party := jsToUpper (jsToString party) }
    | .protoFn name =>
      .ok
        { table := if jsToUpper (jsToString electionType) = "AC" then .ac else .pe
          columnName := protoFnString name
          position := jsParseInt (jsToString position)
          party := jsToUpper (jsToString party) }

/-- `ORDER BY p.ac_no ASC`. -/
def acNoAsc (a b : PartyPosRow) : Prop := a.ac_no ≤ b.ac_no

instance : DecidableRel acNoAsc := fun _ _ => inferInstanceAs (Decidable (_ ≤ _))

/-- Execution of the assembled query: filter the chosen table on position
and `columnName = party`, order by `ac_no`, and LEFT JOIN `assembly_paper`
on `ac_no = assembly_id`. -/
def runDetailsQuery (dbAC dbPE : List PartyPosRow) (assemblyPaper : List AssemblyInfo)
    (q : DetailsQuery) : List (PartyPosRow × Option AssemblyInfo) :=
  let db := match q.table with | .ac => dbAC | .pe => dbPE
  let rows := db.filter (fun r =>
    (match q.position with
     | some p => decide (r.position = p)
     | none => false) && decide (colValue r q.columnName = some q.party))
  (List.insertionSort acNoAsc rows).map (fun r =>
    (r, assemblyPaper.find? (fun a => a.assembly_id = r.ac_no)))

/-- The columns that physically exist on the two tables: the SQL layer
accepts `p.${columnName}` exactly for these; any other interpolated text
(notably the source text of an inherited prototype function) makes
`$queryRawUnsafe` reject. -/
def detailColumns : List String :=
  ["ele_ae_2008", "ele_pe_2009", "ele_ae_2013", "ele_pe_2014", "ele_ae_2018",
   "ele_pe_2019"]

/-- Raw-query execution including its failure mode: the query runs only when
the interpolated column text is a real column; otherwise the promise
rejects and the controller's catch answers 500. -/
def runDetailsQueryE (dbAC dbPE : List PartyPosRow) (assemblyPaper : List AssemblyInfo)
    (q : DetailsQuery) : Except String (List (PartyPosRow × Option AssemblyInfo)) :=
  if q.columnName ∈ detailColumns then .ok (runDetailsQuery dbAC dbPE assemblyPaper q)
  else .error "SQL error: invalid column expression"

/-- Responses of `getPositionDetailsByParty` (the 404 carries `data: []`;
the 500 is the catch around the raw query). -/
inductive DetailsResponse
  | badRequest (message : String)
  | notFound (message : String)
  | serverError (message : String)
  | ok (position party year electionType : String)
      (constituencies : List (PartyPosRow × Option AssemblyInfo))
deriving DecidableEq

/-- HTTP status of a details response. -/
def detailsStatus : DetailsResponse → Nat
  | .badRequest _ => 400
  | .notFound _ => 404
  | .serverError _ => 500
  | .ok _ _ _ _ _ => 200

/-- `getPositionDetailsByParty` (lines 92-167). -/
def getPositionDetailsByParty (dbAC dbPE : List PartyPosRow)
    (assemblyPaper : List AssemblyInfo) (position party year electionType : JSValue) :
    DetailsResponse :=
  match detailsPlan position party year electionType with
  | .error m => .badRequest m
  | .ok q =>
    match runDetailsQueryE dbAC dbPE assemblyPaper q with
    | .error _ => .serverError "Internal server error"
    | .ok joined =>
      if joined = [] then
        .notFound ("No detailed results found for " ++ jsToString party ++ " in "
          ++ jsToString year)
      else .ok (jsToString position) (jsToString party) (jsToString year)
        (jsToString electionType) joined

/-! ## BJP results (`GET /all`, getAllBjpResults, bjpResults controller) -/

/-- A row of `bjp_results_paper` (fields relevant to the listings). -/
structure BjpRow where
  election_year : Int
  election_type : String
deriving DecidableEq

/-- `orderBy: { election_year: 'asc' }`. -/
def bjpYearAsc (a b : BjpRow) : Prop := a.election_year ≤ b.election_year

instance : DecidableRel bjpYearAsc := fun _ _ => inferInstanceAs (Decidable (_ ≤ _))

/-- Responses of `getAllBjpResults` (the 404 body has no `data` field). -/
inductive BjpResponse
  | notFound (message : String)
  | ok (message : String) (data : List BjpRow)
deriving DecidableEq

/-- HTTP status of a BJP-results response. -/
def bjpStatus : BjpResponse → Nat
  | .notFound _ => 404
  | .ok _ _ => 200

/-- `getAllBjpResults` (surname.route part, lines 59-87): zero rows answer
404, otherwise 200 with the year-ascending rows. -/
def getAllBjpResults (db : List BjpRow) : BjpResponse :=
  let results := List.insertionSort bjpYearAsc db
  if results = [] then .notFound "No BJP results found"
  else .ok "BJP results fetched successfully" results

/-! ## Partition-sum lemmas: grouped sums preserve the grand total -/

/-- Splitting a mapped sum along a Boolean predicate. -/
theorem sum_map_filter_split {α : Type} (p : α → Bool) (f : α → Int) (l : List α) :
    ((l.filter p).map f).sum + ((l.filter (fun a => !(p a))).map f).sum
      = (l.map f).sum := by
  induction l with
  | nil => simp
  | cons a t ih =>
    by_cases hp : p a
    · simp [List.filter_cons, hp, ← ih]
      omega
    · simp [List.filter_cons, hp, ← ih]
      omega

/-- Fibre-wise sum over a duplicate-free list of keys covering every element
equals the total sum. -/
theorem sum_over_keys {α K : Type} [DecidableEq K] (key : α → K) (f : α → Int) :
    ∀ (ks : List K) (l : List α), ks.Nodup → (∀ a ∈ l, key a ∈ ks) →
      (ks.map (fun k => ((l.filter (fun a => key a = k)).map f).sum)).sum
        = (l.map f).sum := by
  intro ks
  induction ks with
  | nil =>
    intro l _ hcov
    have hl : l = [] := by
      cases l with
      | nil => rfl
      | cons a t => exact absurd (hcov a (List.mem_cons_self a t)) (List.not_mem_nil _)
    simp [hl]
  | cons k ks ih =>
    intro l hnd hcov
    have hk : k ∉ ks := (List.nodup_cons.mp hnd).1
    have hnd' : ks.Nodup := (List.nodup_cons.mp hnd).2
    have hsplit := sum_map_filter_split (fun a => decide (key a = k)) f l
    have htail : ∀ k' ∈ ks,
        ((l.filter (fun a => key a = k')).map f).sum
          = (((l.filter (fun a => !(decide (key a = k)))).filter
              (fun a => key a = k')).map f).sum := by
      intro k' hk'
      have hkk : k' ≠ k := fun h => hk (h ▸ hk')
      have hfe : ((l.filter (fun a => !(decide (key a = k)))).filter
          (fun a => key a = k')) = l.filter (fun a => key a = k') := by
        rw [List.filter_filter]
        apply List.filter_congr
        intro a _
        by_cases h : key a = k'
        · simp [h, hkk]
        · simp [h]
      rw [hfe]
    calc (((k :: ks)).map (fun k =>
            ((l.filter (fun a => key a = k)).map f).sum)).sum
        = ((l.filter (fun a => key a = k)).map f).sum
            + (ks.map (fun k' => ((l.filter (fun a => key a = k')).map f).sum)).sum := by
          simp
      _ = ((l.filter (fun a => key a = k)).map f).sum
            + (ks.map (fun k' =>
                (((l.filter (fun a => !(decide (key a = k)))).filter
                  (fun a => key a = k')).map f).sum)).sum := by
          rw [List.map_congr_left htail]
      _ = ((l.filter (fun a => key a = k)).map f).sum
            + ((l.filter (fun a => !(decide (key a = k)))).map f).sum := by
          rw [ih (l.filter (fun a => !(decide (key a = k)))) hnd']
          intro a ha
          rcases List.mem_filter.mp ha with ⟨hal, hne⟩
          have : key a ≠ k := by simpa using hne
          rcases List.mem_cons.mp (hcov a hal) with h | h
          · exact absurd h this
          · exact h
      _ = (l.map f).sum := hsplit

/-- The grouped sums of `sqlGroupSum` add up to the grand total of
`count_num` over the grouped rows. -/
theorem sqlGroupSum_total {K : Type} [DecidableEq K] (key : SurnameRow → K)
    (l : List SurnameRow) :
    ((sqlGroupSum key l).map (fun kg => kg.2)).sum = (l.map (·.count_num)).sum := by
  unfold sqlGroupSum
  rw [List.map_map]
  exact sum_over_keys key (·.count_num) ((l.map key).dedup) l (List.nodup_dedup _)
    (fun a ha => List.mem_dedup.mpr (List.mem_map_of_mem key ha))

/-- Sums of a mapped function are invariant under permutation. -/
theorem perm_map_sum {α β : Type} [AddCommMonoid β] {l1 l2 : List α} (f : α → β)
    (h : l1.Perm l2) : (l1.map f).sum = (l2.map f).sum :=
  (h.map f).sum_eq

/-- `x || 0` does nothing to an integer. -/
theorem jsNumOr0_eq (n : Int) : jsNumOr0 n = n := by
  unfold jsNumOr0
  split <;> omega

/-- The separate-mode category groups sum to the grand total of the
filtered rows. -/
theorem catGroupsSorted_total (f : AssemblyFilter) (db : List SurnameRow) :
    ((catGroupsSorted f db).map (·.total_count)).sum
      = ((catBaseRows f db).map (·.count_num)).sum := by
  unfold catGroupsSorted
  rw [perm_map_sum _ (List.perm_insertionSort _ _), List.map_map]
  exact sqlGroupSum_total (fun r => (rowCat r, r.assembly_no)) (catBaseRows f db)

/-- The combined-mode category stats sum to the same grand total. -/
theorem catCombArray_total (f : AssemblyFilter) (db : List SurnameRow) :
    ((catCombArray f db).map (·.total_count)).sum
      = ((catBaseRows f db).map (·.count_num)).sum := by
  unfold catCombArray
  rw [perm_map_sum _ (List.perm_insertionSort _ _), List.map_map]
  have he : (List.map
      ((fun s => s.total_count) ∘ (fun kg : String × Int =>
        (⟨kg.1, jsNumOr0 kg.2, assocGetD (catCombCasteCounts f db) kg.1 0⟩ : CatCombStat)))
      (catCombGroups f db))
      = List.map (fun kg => kg.2) (catCombGroups f db) := by
    apply List.map_congr_left
    intro kg _
    exact jsNumOr0_eq kg.2
  rw [he]
  exact sqlGroupSum_total rowCat (catBaseRows f db)

/-- The separate-mode caste groups sum to the grand total. -/
theorem casteGroupsSorted_total (f : AssemblyFilter) (db : List SurnameRow) :
    ((casteGroupsSorted f db).map (·.total_count)).sum
      = ((casteBaseRows f db).map (·.count_num)).sum := by
  unfold casteGroupsSorted
  rw [perm_map_sum _ (List.perm_insertionSort _ _), List.map_map]
  exact sqlGroupSum_total (fun r => (rowCaste r, r.assembly_no)) (casteBaseRows f db)

/-- The combined-mode caste stats sum to the same grand total. -/
theorem casteCombArray_total (f : AssemblyFilter) (db : List SurnameRow) :
    ((casteCombArray f db).map (·.total_count)).sum
      = ((casteBaseRows f db).map (·.count_num)).sum := by
  unfold casteCombArray
  rw [perm_map_sum _ (List.perm_insertionSort _ _), List.map_map]
  have he : (List.map
      ((fun s => s.total_count) ∘ (fun kg : String × Int =>
        (⟨kg.1, jsNumOr0 kg.2, assocGetD (casteCombSimilarCounts f db) kg.1 0⟩ : CasteCombStat)))
      (casteCombGroups f db))
      = List.map (fun kg => kg.2) (casteCombGroups f db) := by
    apply List.map_congr_left
    intro kg _
    exact jsNumOr0_eq kg.2
  rw [he]
  exact sqlGroupSum_total rowCaste (casteBaseRows f db)

/-- The separate-mode similar groups sum to the grand total. -/
theorem simGroupsSorted_total (f : AssemblyFilter) (db : List SurnameRow) :
    ((simGroupsSorted f db).map (·.total_count)).sum
      = ((simBaseRows f db).map (·.count_num)).sum := by
  unfold simGroupsSorted
  rw [perm_map_sum _ (List.perm_insertionSort _ _), List.map_map]
  exact sqlGroupSum_total (fun r => (rowSim r, r.assembly_no)) (simBaseRows f db)

/-- The combined-mode similar stats sum to the same grand total. -/
theorem simCombArray_total (f : AssemblyFilter) (db : List SurnameRow) :
    ((simCombArray f db).map (·.total_count)).sum
      = ((simBaseRows f db).map (·.count_num)).sum := by
  unfold simCombArray
  rw [perm_map_sum _ (List.perm_insertionSort _ _), List.map_map]
  have he : (List.map
      ((fun s => s.total_count) ∘ (fun kg : String × Int =>
        (⟨kg.1, jsNumOr0 kg.2⟩ : SimCombStat)))
      (simCombGroups f db))
      = List.map (fun kg => kg.2) (simCombGroups f db) := by
    apply List.map_congr_left
    intro kg _
    exact jsNumOr0_eq kg.2
  rw [he]
  exact sqlGroupSum_total rowSim (simBaseRows f db)

/-- C2: For every database and every assembly filter, and for each of the
three dimensions (category, caste, surname-similar), the sum of
`total_count` over the groups produced by the combined-mode aggregation
equals the sum of `total_count` over the (assembly, dimension-value) groups
produced by the separate-mode aggregation for the same filter — combining
changes only the grouping granularity, never the grand total. -/
theorem c2_combined_preserves_grand_total (db : List SurnameRow) (f : AssemblyFilter) :
    ((catCombArray f db).map (·.total_count)).sum
        = ((catGroupsSorted f db).map (·.total_count)).sum
      ∧ ((casteCombArray f db).map (·.total_count)).sum
        = ((casteGroupsSorted f db).map (·.total_count)).sum
      ∧ ((simCombArray f db).map (·.total_count)).sum
        = ((simGroupsSorted f db).map (·.total_count)).sum :=
  ⟨(catCombArray_total f db).trans (catGroupsSorted_total f db).symm,
   (casteCombArray_total f db).trans (casteGroupsSorted_total f db).symm,
   (simCombArray_total f db).trans (simGroupsSorted_total f db).symm⟩

/-! ## Digit strings through the JS parsing and validation layers -/

/-- A decimal digit is not `parseInt` whitespace and not a sign. -/
theorem digit_not_space_sign {c : Char} (hd : c.isDigit = true) :
    isJsSpace c = false ∧ c ≠ '-' ∧ c ≠ '+' := by
  refine ⟨?_, ?_, ?_⟩
  · unfold isJsSpace
    by_cases h1 : c = ' '
    · rw [h1] at hd; exact absurd hd (by decide)
    · by_cases h2 : c = '\t'
      · rw [h2] at hd; exact absurd hd (by decide)
      · by_cases h3 : c = '\n'
        · rw [h3] at hd; exact absurd hd (by decide)
        · by_cases h4 : c = '\r'
          · rw [h4] at hd; exact absurd hd (by decide)
          · simp [h1, h2, h3, h4]
  · intro h; rw [h] at hd; exact absurd hd (by decide)
  · intro h; rw [h] at hd; exact absurd hd (by decide)

/-- `takeWhile` of an everywhere-true predicate is the identity. -/
theorem takeWhile_all_eq {α : Type} (p : α → Bool) (l : List α) (h : l.all p) :
    l.takeWhile p = l := by
  induction l with
  | nil => rfl
  | cons a t ih =>
    simp only [List.all_cons, Bool.and_eq_true] at h
    simp [List.takeWhile, h.1, ih h.2]

/-- `parseInt` on a non-empty all-digit string is its decimal value. -/
theorem jsParseInt_digits (s : String) (hne : s ≠ "")
    (hd : s.data.all Char.isDigit = true) :
    jsParseInt s = some ((digitsToNat s.data : Nat) : Int) := by
  have hdata : s.data ≠ [] := fun h => hne (by
    cases s with
    | mk l => simp at h; simp [h])
  unfold jsParseInt jsParseIntChars
  cases hcs : s.data with
  | nil => exact absurd hcs hdata
  | cons c t =>
    rw [hcs] at hd
    simp only [List.all_cons, Bool.and_eq_true] at hd
    rcases hd with ⟨hc, ht⟩
    rcases digit_not_space_sign hc with ⟨hsp, hminus, hplus⟩
    have hdw : (c :: t).dropWhile isJsSpace = c :: t := by
      simp [List.dropWhile, hsp]
    rw [hdw]
    simp only [hminus, hplus, if_false]
    unfold digitsVal
    have htw : (c :: t).takeWhile Char.isDigit = c :: t :=
      takeWhile_all_eq _ _ (by simp [hc, ht])
    simp [htw]

/-- A comma is not a digit, so all-digit strings contain none. -/
theorem no_comma_of_digits {s : String} (hd : s.data.all Char.isDigit = true) :
    ¬ (',' ∈ s.data) := by
  intro hm
  have := List.all_eq_true.mp hd ',' hm
  exact absurd this (by decide)

/-- An all-digit string is not the literal `all`. -/
theorem ne_all_of_digits {s : String} (hd : s.data.all Char.isDigit = true) :
    s ≠ "all" := by
  intro h
  rw [h] at hd
  exact absurd hd (by decide)

/-- Convenient bundle: a single explicit in-range assembly id. -/
def goodSingleId (s : String) : Prop :=
  s ≠ "" ∧ s.data.all Char.isDigit = true
    ∧ 1 ≤ digitsToNat s.data ∧ digitsToNat s.data ≤ 999999

/-- The assembly-id validator accepts a single explicit in-range id. -/
theorem validateAssemblyId_good (s : String) (h : goodSingleId s) :
    validateAssemblyId (JSValue.str s) = ⟨true, none⟩ := by
  rcases h with ⟨hne, hd, h1, h2⟩
  have hnall : s ≠ "all" := ne_all_of_digits hd
  have hnc : ¬(',' ∈ s.data) := no_comma_of_digits hd
  have hre : assemblyRegexOk s = true := by
    unfold assemblyRegexOk
    simp [hne, hd]
  have c1 : decide (digitsToNat s.data < 1) = false := decide_eq_false (by omega)
  have c2 : decide (999999 < digitsToNat s.data) = false := decide_eq_false (by omega)
  unfold validateAssemblyId singleAssemblyCheck
  simp [jsTruthy, hne, hnall, hnc, hre, c1, c2]
  omega

/-- The filter builder turns a single explicit id into an equality filter. -/
theorem buildAssemblyFilter_good (s : String) (h : goodSingleId s) :
    buildAssemblyFilter (JSValue.str s)
      = .ok (.single ((digitsToNat s.data : Nat) : Int)) := by
  rcases h with ⟨hne, hd, _, _⟩
  have hnall : s ≠ "all" := ne_all_of_digits hd
  have hnc : ¬(',' ∈ s.data) := no_comma_of_digits hd
  unfold buildAssemblyFilter
  simp [jsTruthy, hne, hnall, hnc, jsParseInt_digits s hne hd]

/-- A single explicit id satisfies the unwrap condition of the separate
controllers. -/
theorem singleUnwrap_good (s : String) (h : goodSingleId s) :
    singleUnwrap (JSValue.str s) = true := by
  rcases h with ⟨hne, hd, _, _⟩
  simp [singleUnwrap, jsTruthy, hne, includesComma, ne_all_of_digits hd,
    no_comma_of_digits hd]

/-- The view-mode validator on the literal `combined`. -/
theorem validateViewMode_combined :
    validateViewMode (JSValue.str "combined") = ⟨true, none, some "combined"⟩ := by
  decide

/-- The separate category controller on a single explicit id answers the
unwrapped single-assembly object. -/
theorem getCategoryStatsSeparate_good (assemblies : List AssemblyInfo)
    (db : List SurnameRow) (s : String) (h : goodSingleId s) :
    getCategoryStatsSeparate assemblies db (JSValue.str s)
      = CatResponse.okSingle
          (((catBlocks assemblies (.single ((digitsToNat s.data : Nat) : Int)) db).head?).getD
            ⟨none, []⟩) := by
  unfold getCategoryStatsSeparate
  rw [validateAssemblyId_good s h, buildAssemblyFilter_good s h]
  simp [singleUnwrap_good s h]

/-- The separate caste controller on a single explicit id. -/
theorem getCasteStatsSeparate_good (assemblies : List AssemblyInfo)
    (db : List SurnameRow) (s : String) (h : goodSingleId s) :
    getCasteStatsSeparate assemblies db (JSValue.str s)
      = CasteResponse.okSingle
          (((casteBlocks assemblies (.single ((digitsToNat s.data : Nat) : Int)) db).head?).getD
            ⟨none, []⟩) := by
  unfold getCasteStatsSeparate
  rw [validateAssemblyId_good s h, buildAssemblyFilter_good s h]
  simp [singleUnwrap_good s h]

/-- The separate similar controller on a single explicit id. -/
theorem getSurnameSimilarStatsSeparate_good (assemblies : List AssemblyInfo)
    (db : List SurnameRow) (s : String) (h : goodSingleId s) :
    getSurnameSimilarStatsSeparate assemblies db (JSValue.str s)
      = SimResponse.okSingle
          (((simBlocks assemblies (.single ((digitsToNat s.data : Nat) : Int)) db).head?).getD
            ⟨none, []⟩) := by
  unfold getSurnameSimilarStatsSeparate
  rw [validateAssemblyId_good s h, buildAssemblyFilter_good s h]
  simp [singleUnwrap_good s h]

/-- C1: A `view_mode=combined` request whose `assembly_id` is a single
explicit numeric id (not `all`, no comma) is routed by each of the three
dispatchers (category, caste, surname-similar) to the separate-mode
aggregation, and the response is the separate-shaped single unwrapped
object (the `okSingle` shape, which carries no `isCombined` tag), never the
combined-tagged object. -/
theorem c1_combined_single_id_routes_separate (assemblies : List AssemblyInfo)
    (db : List SurnameRow) (s : String) (h : goodSingleId s) :
    (getAllCategoryStatus assemblies db (JSValue.str s) (JSValue.str "combined")
        = getCategoryStatsSeparate assemblies db (JSValue.str s)
      ∧ ∃ b, getCategoryStatsSeparate assemblies db (JSValue.str s)
          = CatResponse.okSingle b)
    ∧ (getAllCasteStatus assemblies db (JSValue.str s) (JSValue.str "combined")
        = getCasteStatsSeparate assemblies db (JSValue.str s)
      ∧ ∃ b, getCasteStatsSeparate assemblies db (JSValue.str s)
          = CasteResponse.okSingle b)
    ∧ (getAllSurnameSimilarStats assemblies db (JSValue.str s) (JSValue.str "combined")
        = getSurnameSimilarStatsSeparate assemblies db (JSValue.str s)
      ∧ ∃ b, getSurnameSimilarStatsSeparate assemblies db (JSValue.str s)
          = SimResponse.okSingle b) := by
  obtain ⟨hne, hd, h1, h2⟩ := h
  have hg : goodSingleId s := ⟨hne, hd, h1, h2⟩
  have hnall : s ≠ "all" := ne_all_of_digits hd
  have hnc : ¬(',' ∈ s.data) := no_comma_of_digits hd
  refine ⟨⟨?_, ⟨_, getCategoryStatsSeparate_good assemblies db s hg⟩⟩,
    ⟨?_, ⟨_, getCasteStatsSeparate_good assemblies db s hg⟩⟩,
    ⟨?_, ⟨_, getSurnameSimilarStatsSeparate_good assemblies db s hg⟩⟩⟩
  · unfold getAllCategoryStatus
    rw [validateAssemblyId_good s hg]
    simp [validateViewMode_combined, includesComma, hnall, hnc]
  · unfold getAllCasteStatus
    rw [validateAssemblyId_good s hg]
    simp [validateViewMode_combined, includesComma, hnall, hnc]
  · unfold getAllSurnameSimilarStats
    rw [validateAssemblyId_good s hg]
    simp [validateViewMode_combined, includesComma, hnall, hnc]

/-- Witness for C1 at `assembly_id = "5"` with empty tables. -/
theorem c1_witness :
    (getAllCategoryStatus [] [] (JSValue.str "5") (JSValue.str "combined")
        = getCategoryStatsSeparate [] [] (JSValue.str "5")
      ∧ ∃ b, getCategoryStatsSeparate [] [] (JSValue.str "5")
          = CatResponse.okSingle b)
    ∧ (getAllCasteStatus [] [] (JSValue.str "5") (JSValue.str "combined")
        = getCasteStatsSeparate [] [] (JSValue.str "5")
      ∧ ∃ b, getCasteStatsSeparate [] [] (JSValue.str "5")
          = CasteResponse.okSingle b)
    ∧ (getAllSurnameSimilarStats [] [] (JSValue.str "5") (JSValue.str "combined")
        = getSurnameSimilarStatsSeparate [] [] (JSValue.str "5")
      ∧ ∃ b, getSurnameSimilarStatsSeparate [] [] (JSValue.str "5")
          = SimResponse.okSingle b) :=
  c1_combined_single_id_routes_separate [] [] "5"
    ⟨by decide, by decide, by decide, by decide⟩

/-! ## Position-details: year-column mapping and error handling -/

/-- The fixed year / column pairs of the data contract. -/
def yearColumnPairs : List (String × String) :=
  [("2008", "ele_ae_2008"), ("2009", "ele_pe_2009"), ("2013", "ele_ae_2013"),
   ("2014", "ele_pe_2014"), ("2018", "ele_ae_2018"), ("2019", "ele_pe_2019")]

/-- Counterexample to C3 as stated: `year=constructor` is outside the
mapping (`yearColumnMap` has no such own key), yet with all four parameters
present the endpoint answers 500, not 400 — the plain-object lookup walks
the prototype chain, `yearColumnMap['constructor']` is a truthy inherited
function, the `if (!columnName)` check is bypassed, and the function's
string form interpolated into the raw SQL makes the query reject into the
catch. -/
theorem c3_counterexample :
    getPositionDetailsByParty [] [] [] (JSValue.str "7") (JSValue.str "BJP")
        (JSValue.str "constructor") (JSValue.str "AC")
        = .serverError "Internal server error"
      ∧ detailsStatus (getPositionDetailsByParty [] [] [] (JSValue.str "7")
          (JSValue.str "BJP") (JSValue.str "constructor") (JSValue.str "AC")) = 500
      ∧ yearColumnMap "constructor" = none := by
  decide

/-- C3 (amended): every mapped year queries its fixed column (2008 on
`ele_ae_2008`, 2009 on `ele_pe_2009`, ...), on the AC table
`tbl_result_party_position` exactly when `electionType` upper-cases to `AC`
and on the PE table otherwise; a missing (falsy) parameter answers the 400
`required` response, and an unmapped year answers the 400 `Invalid year`
response **unless** the year names an inherited `Object.prototype` member
(`constructor`, `toString`, `valueOf`, `hasOwnProperty`, ...): such a year
slips past the truthiness check, the inherited function's string form is
interpolated into the raw SQL, and the rejected query answers 500. -/
theorem c3_details_amended :
    (∀ (p pa et : String), p ≠ "" → pa ≠ "" → et ≠ "" →
      ∀ yc ∈ yearColumnPairs,
        detailsPlan (JSValue.str p) (JSValue.str pa) (JSValue.str yc.1) (JSValue.str et)
          = .ok
              { table := if jsToUpper et = "AC" then .ac else .pe
                columnName := yc.2
                position := jsParseInt p
                party := jsToUpper pa })
    ∧ (∀ (dbAC dbPE : List PartyPosRow) (ap : List AssemblyInfo) (p pa y et : String),
        p ≠ "" → pa ≠ "" → y ≠ "" → et ≠ "" → yearColumnGet y = .absent →
          getPositionDetailsByParty dbAC dbPE ap (JSValue.str p) (JSValue.str pa)
              (JSValue.str y) (JSValue.str et) = .badRequest ("Invalid year: " ++ y)
            ∧ detailsStatus (getPositionDetailsByParty dbAC dbPE ap (JSValue.str p)
                (JSValue.str pa) (JSValue.str y) (JSValue.str et)) = 400)
    ∧ (∀ (dbAC dbPE : List PartyPosRow) (ap : List AssemblyInfo) (pos pa y et : JSValue),
        (jsTruthy pos = false ∨ jsTruthy pa = false ∨ jsTruthy y = false
            ∨ jsTruthy et = false) →
          getPositionDetailsByParty dbAC dbPE ap pos pa y et
              = .badRequest "Position, party, year, and electionType are required"
            ∧ detailsStatus (getPositionDetailsByParty dbAC dbPE ap pos pa y et) = 400)
    ∧ (∀ (dbAC dbPE : List PartyPosRow) (ap : List AssemblyInfo) (p pa et : String),
        p ≠ "" → pa ≠ "" → et ≠ "" →
        ∀ y ∈ objectPrototypeKeys,
          getPositionDetailsByParty dbAC dbPE ap (JSValue.str p) (JSValue.str pa)
              (JSValue.str y) (JSValue.str et) = .serverError "Internal server error"
            ∧ detailsStatus (getPositionDetailsByParty dbAC dbPE ap (JSValue.str p)
                (JSValue.str pa) (JSValue.str y) (JSValue.str et)) = 500) := by
  refine ⟨?_, ?_, ?_, ?_⟩
  · intro p pa et hp hpa het yc hyc
    have htp : jsTruthy (JSValue.str p) = true := by simp [jsTruthy, hp]
    have htpa : jsTruthy (JSValue.str pa) = true := by simp [jsTruthy, hpa]
    have htet : jsTruthy (JSValue.str et) = true := by simp [jsTruthy, het]
    fin_cases hyc <;>
      simp [detailsPlan, htp, htpa, htet, jsTruthy, jsToString, yearColumnGet,
        yearColumnMap] <;>
      exact ⟨hp, hpa, het⟩
  · intro dbAC dbPE ap p pa y et hp hpa hy het hmap
    have hb : detailsPlan (JSValue.str p) (JSValue.str pa) (JSValue.str y)
        (JSValue.str et) = .error ("Invalid year: " ++ y) := by
      simp [detailsPlan, jsTruthy, hp, hpa, hy, het, jsToString, hmap]
    constructor
    · simp [getPositionDetailsByParty, hb]
    · simp [getPositionDetailsByParty, hb, detailsStatus]
  · intro dbAC dbPE ap pos pa y et hmiss
    have hb : detailsPlan pos pa y et
        = .error "Position, party, year, and electionType are required" := by
      unfold detailsPlan
      rcases hmiss with h | h | h | h <;> simp [h]
    constructor
    · simp [getPositionDetailsByParty, hb]
    · simp [getPositionDetailsByParty, hb, detailsStatus]
  · intro dbAC dbPE ap p pa et hp hpa het y hy
    have htp : jsTruthy (JSValue.str p) = true := by simp [jsTruthy, hp]
    have htpa : jsTruthy (JSValue.str pa) = true := by simp [jsTruthy, hpa]
    have htet : jsTruthy (JSValue.str et) = true := by simp [jsTruthy, het]
    fin_cases hy <;>
      constructor <;>
      simp [getPositionDetailsByParty, detailsPlan, runDetailsQueryE, htp, htpa,
        htet, hp, hpa, het, jsTruthy, jsToString, yearColumnGet, yearColumnMap,
        objectPrototypeKeys, protoFnString, detailColumns, detailsStatus]

/-- Witness for C3 amended: `year=2008&electionType=AC` plans `ele_ae_2008`
on the AC table; year `2025` answers 400; a missing party answers 400; and
`year=toString` answers 500. -/
theorem c3_amended_witness :
    (detailsPlan (JSValue.str "7") (JSValue.str "BJP") (JSValue.str "2008")
        (JSValue.str "AC")
        = .ok
            { table := if jsToUpper "AC" = "AC" then .ac else .pe
              columnName := "ele_ae_2008"
              position := jsParseInt "7"
              party := jsToUpper "BJP" })
    ∧ (getPositionDetailsByParty [] [] [] (JSValue.str "7") (JSValue.str "BJP")
          (JSValue.str "2025") (JSValue.str "AC") = .badRequest "Invalid year: 2025"
        ∧ detailsStatus (getPositionDetailsByParty [] [] [] (JSValue.str "7")
            (JSValue.str "BJP") (JSValue.str "2025") (JSValue.str "AC")) = 400)
    ∧ (getPositionDetailsByParty [] [] [] (JSValue.str "7") JSValue.undefined
          (JSValue.str "2008") (JSValue.str "AC")
          = .badRequest "Position, party, year, and electionType are required"
        ∧ detailsStatus (getPositionDetailsByParty [] [] [] (JSValue.str "7")
            JSValue.undefined (JSValue.str "2008") (JSValue.str "AC")) = 400)
    ∧ (getPositionDetailsByParty [] [] [] (JSValue.str "7") (JSValue.str "BJP")
          (JSValue.str "toString") (JSValue.str "AC")
          = .serverError "Internal server error"
        ∧ detailsStatus (getPositionDetailsByParty [] [] [] (JSValue.str "7")
            (JSValue.str "BJP") (JSValue.str "toString") (JSValue.str "AC")) = 500) :=
  ⟨c3_details_amended.1 "7" "BJP" "AC" (by decide) (by decide) (by decide)
      ("2008", "ele_ae_2008") (by decide),
   c3_details_amended.2.1 [] [] [] "7" "BJP" "2025" "AC" (by decide) (by decide)
      (by decide) (by decide) (by decide),
   c3_details_amended.2.2.1 [] [] [] (JSValue.str "7") JSValue.undefined
      (JSValue.str "2008") (JSValue.str "AC") (Or.inr (Or.inl (by decide))),
   c3_details_amended.2.2.2 [] [] [] "7" "BJP" "AC" (by decide) (by decide)
      (by decide) "toString" (by decide)⟩

/-- Every mapped column is a real column of the tables, so the raw query on
a mapped year never rejects. -/
theorem yearColumnMap_mem_detailColumns {y col : String}
    (h : yearColumnMap y = some col) : col ∈ detailColumns := by
  unfold yearColumnMap at h
  split_ifs at h <;> simp_all [detailColumns]

/-- C10: With all four parameters present (truthy) and a mapped year, the
table queried by the position-details operation is selected solely by
whether `electionType` upper-cases to `AC`: any other value — for example
`XYZ` — selects the parliamentary table `tbl_result_party_position_pe`, and
no `electionType` value is ever rejected with a 400. -/
theorem c10_election_type_table_selection (dbAC dbPE : List PartyPosRow)
    (ap : List AssemblyInfo) (p pa y et : String) (hp : p ≠ "") (hpa : pa ≠ "")
    (hy : y ≠ "") (het : et ≠ "") (col : String) (hcol : yearColumnMap y = some col) :
    detailsPlan (JSValue.str p) (JSValue.str pa) (JSValue.str y) (JSValue.str et)
        = .ok
            { table := if jsToUpper et = "AC" then .ac else .pe
              columnName := col
              position := jsParseInt p
              party := jsToUpper pa }
      ∧ detailsStatus (getPositionDetailsByParty dbAC dbPE ap (JSValue.str p)
          (JSValue.str pa) (JSValue.str y) (JSValue.str et)) ≠ 400 := by
  have hplan : detailsPlan (JSValue.str p) (JSValue.str pa) (JSValue.str y)
      (JSValue.str et)
      = .ok
          { table := if jsToUpper et = "AC" then .ac else .pe
            columnName := col
            position := jsParseInt p
            party := jsToUpper pa } := by
    simp [detailsPlan, jsTruthy, hp, hpa, hy, het, jsToString, yearColumnGet, hcol]
  refine ⟨hplan, ?_⟩
  have hcolmem : col ∈ detailColumns := yearColumnMap_mem_detailColumns hcol
  unfold getPositionDetailsByParty
  rw [hplan]
  by_cases hj : runDetailsQuery dbAC dbPE ap
      { table := if jsToUpper et = "AC" then .ac else .pe
        columnName := col
        position := jsParseInt p
        party := jsToUpper pa } = [] <;>
    simp [runDetailsQueryE, hcolmem, hj, detailsStatus]

/-- Witness for C10: `electionType=XYZ` with a mapped year selects the PE
table and is not rejected. -/
theorem c10_witness :
    detailsPlan (JSValue.str "7") (JSValue.str "BJP") (JSValue.str "2008")
        (JSValue.str "XYZ")
        = .ok
            { table := if jsToUpper "XYZ" = "AC" then .ac else .pe
              columnName := "ele_ae_2008"
              position := jsParseInt "7"
              party := jsToUpper "BJP" }
      ∧ detailsStatus (getPositionDetailsByParty [] [] [] (JSValue.str "7")
          (JSValue.str "BJP") (JSValue.str "2008") (JSValue.str "XYZ")) ≠ 400 :=
  c10_election_type_table_selection [] [] [] "7" "BJP" "2008" "XYZ" (by decide)
    (by decide) (by decide) (by decide) "ele_ae_2008" (by decide)

/-! ## C5: the assembly-identifier validator -/

/-- Is `t` (as written) a decimal numeral whose value lies in
`[1, 999999]`?  This is the claim's "positive integer in [1, 999999]"
token test. -/
def posIntInRange (t : String) : Bool :=
  assemblyRegexOk t
    && (decide (1 ≤ digitsToNat t.data) && decide (digitsToNat t.data ≤ 999999))

/-- The acceptance predicate exactly as the claim words it: absent, the
literal `all`, or every comma-separated token (trimmed) a positive integer
in `[1, 999999]`. -/
def c5ClaimAccepts : Option String → Bool
  | none => true
  | some s =>
    decide (s = "all") || (jsSplitComma s).all (fun t => posIntInRange (jsTrim t))

/-- Counterexample to C5 as stated: on `" 5"` the claim's predicate accepts
(the trimmed token is `5`), but the validator rejects, because the
single-value branch applies the digits regex to the raw, untrimmed string.
(Conversely the validator accepts `""`, which is neither absent nor
token-valid.) -/
theorem c5_counterexample :
    (validateAssemblyId (JSValue.str " 5")).isValid = false
      ∧ c5ClaimAccepts (some " 5") = true
      ∧ (validateAssemblyId (JSValue.str "")).isValid = true
      ∧ c5ClaimAccepts (some "") = false := by
  decide

/-- The single-value check is the untrimmed token test. -/
theorem singleAssemblyCheck_isValid (s : String) :
    (singleAssemblyCheck s).isValid = posIntInRange s := by
  unfold singleAssemblyCheck posIntInRange
  cases hreg : assemblyRegexOk s with
  | false => simp [hreg]
  | true =>
    by_cases h1 : 1 ≤ digitsToNat s.data
    · by_cases h2 : digitsToNat s.data ≤ 999999
      · have hc : (decide (digitsToNat s.data < 1)
            || decide (999999 < digitsToNat s.data)) = false := by
          simp only [Bool.or_eq_false_iff, decide_eq_false_iff_not]
          omega
        simp [hreg, hc, h1, h2]
        rw [if_neg (by omega)]
      · have hc : (decide (digitsToNat s.data < 1)
            || decide (999999 < digitsToNat s.data)) = true := by
          simp only [Bool.or_eq_true, decide_eq_true_eq]
          omega
        simp [hreg, hc, h2]
        rw [if_pos (by omega)]
    · have hc : (decide (digitsToNat s.data < 1)
          || decide (999999 < digitsToNat s.data)) = true := by
        simp only [Bool.or_eq_true, decide_eq_true_eq]
        omega
      simp [hreg, hc, h1]
      rw [if_pos (by omega)]

/-- The token loop accepts exactly when every trimmed token passes the
numeral-and-range test. -/
theorem checkAssemblyTokens_isValid (ts : List String) :
    (checkAssemblyTokens ts).isValid
      = ts.all (fun t => posIntInRange (jsTrim t)) := by
  induction ts with
  | nil => rfl
  | cons id rest ih =>
    unfold checkAssemblyTokens
    simp only [List.all_cons]
    cases hreg : assemblyRegexOk (jsTrim id) with
    | false => simp [hreg, posIntInRange]
    | true =>
      by_cases h1 : 1 ≤ digitsToNat (jsTrim id).data
      · by_cases h2 : digitsToNat (jsTrim id).data ≤ 999999
        · have hc : (decide (digitsToNat (jsTrim id).data < 1)
              || decide (999999 < digitsToNat (jsTrim id).data)) = false := by
            simp only [Bool.or_eq_false_iff, decide_eq_false_iff_not]
            omega
          simp [hreg, hc, h1, h2, posIntInRange, ih]
          rw [if_neg (by omega)]
          rw [ih]
          simp [posIntInRange]
        · have hc : (decide (digitsToNat (jsTrim id).data < 1)
              || decide (999999 < digitsToNat (jsTrim id).data)) = true := by
            simp only [Bool.or_eq_true, decide_eq_true_eq]
            omega
          simp [hreg, hc, h2, posIntInRange]
          rw [if_pos (by omega)]
      · have hc : (decide (digitsToNat (jsTrim id).data < 1)
            || decide (999999 < digitsToNat (jsTrim id).data)) = true := by
          simp only [Bool.or_eq_true, decide_eq_true_eq]
          omega
        simp [hreg, hc, h1, posIntInRange]
        rw [if_pos (by omega)]

/-- C5 amended: the validator accepts an absent parameter, and accepts a
string iff it is empty (falsy, treated like absent), the literal `all`, or —
when it contains a comma — every comma-separated token trimmed is a decimal
numeral with value in `[1, 999999]`, or — when it contains no comma — the
whole untrimmed string is such a numeral. -/
def c5AmendedAccepts (s : String) : Bool :=
  if s = "" then true
  else if s = "all" then true
  else if ',' ∈ s.data then (jsSplitComma s).all (fun t => posIntInRange (jsTrim t))
  else posIntInRange s

/-- C5 (amended): the validator's verdict on every string input matches the
amended acceptance predicate, and an absent input is accepted. -/
theorem c5_validator_amended (s : String) :
    (validateAssemblyId (JSValue.str s)).isValid = c5AmendedAccepts s
      ∧ (validateAssemblyId JSValue.undefined).isValid = true := by
  constructor
  · unfold validateAssemblyId c5AmendedAccepts
    by_cases h0 : s = ""
    · simp [jsTruthy, h0]
    · by_cases h1 : s = "all"
      · simp [jsTruthy, h0, h1]
      · by_cases h2 : ',' ∈ s.data
        · simp [jsTruthy, h0, h1, h2, checkAssemblyTokens_isValid]
        · simp [jsTruthy, h0, h1, h2, singleAssemblyCheck_isValid]
  · rfl

/-! ## C6: the pagination validator -/

/-- Is `s` written as a plain decimal numeral (the claim's "positive
integer" input form, sign-less and fraction-less)? -/
def intNumeral (s : String) : Bool :=
  !(s = "") && s.data.all Char.isDigit

/-- Counterexample to C6 as stated: the input `page = "2.5"` is not a
positive integer, yet the validator accepts it (as page 2), because
`parseInt` keeps the leading integer prefix instead of rejecting — so
non-integer numeric input is truncated rather than rejected. -/
theorem c6_counterexample :
    validatePagination (JSValue.str "2.5") JSValue.undefined
        = ⟨true, none, some 2, some 100⟩
      ∧ intNumeral "2.5" = false := by
  decide

/-- C6 (amended): page defaults to 1 and limit to 100 when absent; an input
pair is accepted iff `parseInt(String(x || default))` yields integers with
page `≥ 1` and limit in `[1, 1000]` — where `parseInt` takes the leading
integer prefix, so a trailing-garbage numeral like `"2.5"` is accepted as
its prefix — and accepted values are passed through exactly as parsed,
never clamped. -/
theorem c6_pagination_amended (page limit : JSValue) :
    (validatePagination JSValue.undefined JSValue.undefined
        = ⟨true, none, some 1, some 100⟩)
    ∧ ((validatePagination page limit).isValid = true ↔
        (∃ p l : Int,
          jsParseInt (jsToString (if jsTruthy page then page else JSValue.num 1)) = some p
            ∧ jsParseInt (jsToString (if jsTruthy limit then limit else JSValue.num 100))
                = some l
            ∧ 1 ≤ p ∧ 1 ≤ l ∧ l ≤ 1000))
    ∧ (∀ p l : Int,
        jsParseInt (jsToString (if jsTruthy page then page else JSValue.num 1)) = some p →
        jsParseInt (jsToString (if jsTruthy limit then limit else JSValue.num 100))
            = some l →
        1 ≤ p → 1 ≤ l → l ≤ 1000 →
        validatePagination page limit = ⟨true, none, some p, some l⟩) := by
  refine ⟨by decide, ?_, ?_⟩
  · unfold validatePagination
    cases hp : jsParseInt (jsToString (if jsTruthy page then page else JSValue.num 1)) with
    | none => simp [hp]
    | some p =>
      by_cases h1 : p < 1
      · simp only [hp, h1, if_true]
        constructor
        · intro hv
          exact absurd hv (by decide)
        · rintro ⟨p', l', hp', _, hge, _⟩
          cases hp'
          omega
      · cases hl : jsParseInt (jsToString (if jsTruthy limit then limit else JSValue.num 100)) with
        | none => simp [hp, h1, hl]
        | some l =>
          by_cases h2 : l < 1 ∨ 1000 < l
          · have hc : (decide (l < 1) || decide (1000 < l)) = true := by
              simp only [Bool.or_eq_true, decide_eq_true_eq]
              omega
            simp only [hp, h1, if_false, hl, hc, if_true]
            constructor
            · intro hv
              exact absurd hv (by decide)
            · rintro ⟨p', l', hp', hl', _, hlge, hlle⟩
              cases hl'
              omega
          · have hc : (decide (l < 1) || decide (1000 < l)) = false := by
              simp only [Bool.or_eq_false_iff, decide_eq_false_iff_not]
              omega
            simp only [hp, h1, if_false, hl, hc]
            constructor
            · intro _
              exact ⟨p, l, rfl, rfl, by omega, by omega, by omega⟩
            · intro _
              rfl
  · intro p l hp hl h1 h2 h3
    unfold validatePagination
    rw [hp, hl]
    have hc1 : ¬ (p < 1) := by omega
    have hc2 : (decide (l < 1) || decide (1000 < l)) = false := by
      simp only [Bool.or_eq_false_iff, decide_eq_false_iff_not]
      omega
    simp [hc1, hc2]

/-- Witness for C6 amended at `page = "3"`, `limit = "250"`. -/
theorem c6_witness :
    validatePagination (JSValue.str "3") (JSValue.str "250")
      = ⟨true, none, some 3, some 250⟩ :=
  (c6_pagination_amended (JSValue.str "3") (JSValue.str "250")).2.2 3 250 (by decide)
    (by decide) (by decide) (by decide) (by decide)

/-! ## C8: validator totality -/

/-- Is the raw value a string? -/
def isStrValue : JSValue → Bool
  | .str _ => true
  | _ => false

/-- Did the free-text validator throw? -/
def spThrows : Except JsError StringParamResult → Bool
  | .error _ => true
  | .ok _ => false

/-- Counterexample to C8 as stated: the free-text validator is not total on
arbitrary raw input — on the truthy non-string `42` it throws a `TypeError`
(`param.trim is not a function`) instead of returning a `{valid, ...}`
result. -/
theorem c8_counterexample :
    validateStringParam (JSValue.num 42) "Category" true
      = .error (.typeError "param.trim is not a function") := by
  rfl

/-- C8 (amended): the assembly-id, pagination and view-mode validators are
total functions of the raw input (they only use coercions that never
throw), while the free-text validator throws exactly on truthy non-string
input — on absent/falsy input and on every string it returns a
`{valid, ...}` result. -/
theorem c8_validator_totality (v : JSValue) (name : String) (req : Bool) :
    spThrows (validateStringParam v name req) = (jsTruthy v && !(isStrValue v)) := by
  cases v with
  | undefined => cases req <;> simp [validateStringParam, spThrows, jsTruthy, isStrValue]
  | str s =>
    by_cases h0 : s = "" <;> by_cases h1 : jsTrim s = ""
      <;> by_cases h2 : sqlInjectionTest (jsTrim s) = true
      <;> by_cases h3 : 255 < (jsTrim s).length
      <;> cases req
      <;> simp [validateStringParam, spThrows, jsTruthy, isStrValue, h0, h1, h2, h3]
  | num n =>
    by_cases hn : n = 0 <;> cases req
      <;> simp [validateStringParam, spThrows, jsTruthy, isStrValue, hn]
  | arr l => cases req <;> simp [validateStringParam, spThrows, jsTruthy, isStrValue]

/-! ## C9: zero matching rows -/

/-- Counterexample to C9 as stated: the well-formed query `assembly_id=5`
against an empty table matches zero rows, yet the category endpoint answers
HTTP 200 (with the empty single-assembly shape), not 404 — so zero-match
does sometimes yield a 200. -/
theorem c9_counterexample :
    getCategoryStatsSeparate [] [] (JSValue.str "5") = CatResponse.okSingle ⟨none, []⟩
      ∧ catStatus (getCategoryStatsSeparate [] [] (JSValue.str "5")) = 200 := by
  decide

/-- C9 (amended): zero-match behaviour is per endpoint family — the BJP
results listing answers 404 exactly when zero rows match (and 200
otherwise), while the surname aggregation endpoints answer 200 with an
empty data shape (`{assembly: null, stats: []}` for a single-assembly
request); zero matching rows never produce a 500. -/
theorem c9_zero_match_amended :
    (∀ db : List BjpRow, bjpStatus (getAllBjpResults db) = if db = [] then 404 else 200)
    ∧ (∀ (assemblies : List AssemblyInfo) (db : List SurnameRow) (s : String),
        goodSingleId s →
        catBaseRows (.single ((digitsToNat s.data : Nat) : Int)) db = [] →
        getCategoryStatsSeparate assemblies db (JSValue.str s)
            = CatResponse.okSingle ⟨none, []⟩
          ∧ catStatus (getCategoryStatsSeparate assemblies db (JSValue.str s)) = 200) := by
  constructor
  · intro db
    unfold getAllBjpResults
    by_cases h : db = []
    · simp [h, bjpStatus]
    · have hne : List.insertionSort bjpYearAsc db ≠ [] := by
        intro he
        have hlen := (List.perm_insertionSort bjpYearAsc db).length_eq
        rw [he] at hlen
        exact h (List.length_eq_zero.mp hlen.symm)
      simp [h, hne, bjpStatus]
  · intro assemblies db s hg hz
    have hstats : catGroupsSorted (.single ((digitsToNat s.data : Nat) : Int)) db = [] := by
      simp [catGroupsSorted, sqlGroupSum, hz]
    have hblocks : catBlocks assemblies (.single ((digitsToNat s.data : Nat) : Int)) db
        = [] := by
      simp [catBlocks, hstats]
    rw [getCategoryStatsSeparate_good assemblies db s hg, hblocks]
    exact ⟨rfl, rfl⟩

/-- Witness for C9 amended: a one-row BJP table answers 200; the
zero-match category query answers 200 with the empty shape. -/
theorem c9_witness :
    (bjpStatus (getAllBjpResults [⟨2008, "AC"⟩])
        = if ([(⟨2008, "AC"⟩ : BjpRow)] = []) then 404 else 200)
      ∧ (getCategoryStatsSeparate [] [] (JSValue.str "5")
            = CatResponse.okSingle ⟨none, []⟩
          ∧ catStatus (getCategoryStatsSeparate [] [] (JSValue.str "5")) = 200) :=
  ⟨c9_zero_match_amended.1 [⟨2008, "AC"⟩],
   c9_zero_match_amended.2 [] [] "5" ⟨by decide, by decide, by decide, by decide⟩
     (by decide)⟩

/-! ## C7: search pagination -/

/-- The pagination validator accepts parsed in-range values unchanged. -/
theorem validatePagination_ok (page limit : JSValue) (p l : Int)
    (hp : jsParseInt (jsToString (if jsTruthy page then page else JSValue.num 1)) = some p)
    (hl : jsParseInt (jsToString (if jsTruthy limit then limit else JSValue.num 100))
        = some l)
    (h1 : 1 ≤ p) (h2 : 1 ≤ l) (h3 : l ≤ 1000) :
    validatePagination page limit = ⟨true, none, some p, some l⟩ := by
  unfold validatePagination
  rw [hp, hl]
  have hc1 : ¬ (p < 1) := by omega
  have hc2 : (decide (l < 1) || decide (1000 < l)) = false := by
    simp only [Bool.or_eq_false_iff, decide_eq_false_iff_not]
    omega
  simp [hc1, hc2]

/-- Element-wise description of a `skip`/`take` page. -/
theorem getElem?_take_drop {α : Type} (l : List α) (n k i : Nat) :
    ((l.drop n).take k)[i]? = if i < k then l[n + i]? else none := by
  by_cases h : i < k
  · rw [List.getElem?_take_of_lt h, List.getElem?_drop]
    simp [h]
  · rw [if_neg h]
    apply List.getElem?_eq_none
    calc ((l.drop n).take k).length ≤ k := by
          rw [List.length_take]
          omega
      _ ≤ i := Nat.le_of_not_lt h

/-- `ceilDiv` is the exact ceiling: the smallest page count covering all
rows. -/
theorem ceilDiv_bounds (a b : Nat) (hb : 1 ≤ b) :
    a ≤ b * ceilDiv a b ∧ b * ceilDiv a b < a + b := by
  unfold ceilDiv
  have hdm := Nat.div_add_mod (a + b - 1) b
  have hlt : (a + b - 1) % b < b := Nat.mod_lt _ (by omega)
  generalize hm : b * ((a + b - 1) / b) = m
  rw [hm] at hdm
  omega

/-- C7: For a valid search request with raw page `P` and limit `L`, the
search endpoint returns the total matching count of the assembly-filtered
set, `totalPages = ceil(count / L)` (characterized as the least multiple
bound), current page `P`, and exactly the window of the count-descending
sorted filtered set starting at offset `(P-1)*L` of length at most `L` —
i.e. rows `(P-1)*L + 1` through `P*L`. -/
theorem c7_search_pagination (db : List SurnameRow) (assembly_id : JSValue)
    (sp sl : String) (P L : Nat)
    (hval : (validateAssemblyId assembly_id).isValid = true)
    (hsp1 : sp ≠ "") (hsp2 : sp.data.all Char.isDigit = true)
    (hspv : digitsToNat sp.data = P)
    (hsl1 : sl ≠ "") (hsl2 : sl.data.all Char.isDigit = true)
    (hslv : digitsToNat sl.data = L)
    (hP : 1 ≤ P) (hL1 : 1 ≤ L) (hL2 : L ≤ 1000) :
    getSurnames db assembly_id (JSValue.str sp) (JSValue.str sl)
        = SearchResponse.ok (searchFiltered db assembly_id).length
            (ceilDiv (searchFiltered db assembly_id).length L) ((P : Nat) : Int)
            ((((searchSorted db assembly_id).drop ((P - 1) * L)).take L).map toSearchRow)
      ∧ (∀ i : Nat,
          ((((searchSorted db assembly_id).drop ((P - 1) * L)).take L).map toSearchRow)[i]?
            = if i < L
              then ((searchSorted db assembly_id).map toSearchRow)[(P - 1) * L + i]?
              else none)
      ∧ (searchFiltered db assembly_id).length
          ≤ L * ceilDiv (searchFiltered db assembly_id).length L
      ∧ L * ceilDiv (searchFiltered db assembly_id).length L
          < (searchFiltered db assembly_id).length + L := by
  have hPv : jsParseInt sp = some ((P : Nat) : Int) := by
    rw [← hspv]
    exact jsParseInt_digits sp hsp1 hsp2
  have hLv : jsParseInt sl = some ((L : Nat) : Int) := by
    rw [← hslv]
    exact jsParseInt_digits sl hsl1 hsl2
  have hptr : jsTruthy (JSValue.str sp) = true := by simp [jsTruthy, hsp1]
  have hltr : jsTruthy (JSValue.str sl) = true := by simp [jsTruthy, hsl1]
  have hpag : validatePagination (JSValue.str sp) (JSValue.str sl)
      = ⟨true, none, some ((P : Nat) : Int), some ((L : Nat) : Int)⟩ := by
    apply validatePagination_ok
    · rw [hptr]
      simpa [jsToString] using hPv
    · rw [hltr]
      simpa [jsToString] using hLv
    · exact_mod_cast hP
    · exact_mod_cast hL1
    · exact_mod_cast hL2
  have hskip : ((((P : Nat) : Int) - 1) * ((L : Nat) : Int)).toNat = (P - 1) * L := by
    have h' : (((P : Nat) : Int) - 1) = (((P - 1 : Nat)) : Int) := by omega
    rw [h', ← Nat.cast_mul, Int.toNat_natCast]
  have hLt : (((L : Nat) : Int)).toNat = L := Int.toNat_natCast L
  refine ⟨?_, ?_, (ceilDiv_bounds _ L hL1).1, (ceilDiv_bounds _ L hL1).2⟩
  · unfold getSurnames
    simp only [hval, hpag]
    simp [hpag, hskip, hLt, searchSorted]
  · intro i
    rw [List.getElem?_map, getElem?_take_drop]
    by_cases h : i < L
    · simp [h, List.getElem?_map]
    · simp [h]

/-- Witness for C7: five rows, `page=2`, `limit=2`, no assembly filter. -/
theorem c7_witness :
    (getSurnames
        [⟨1, "a", none, none, none, 1, 5⟩, ⟨2, "b", none, none, none, 1, 9⟩,
         ⟨3, "c", none, none, none, 1, 7⟩, ⟨4, "d", none, none, none, 1, 3⟩,
         ⟨5, "e", none, none, none, 1, 8⟩]
        JSValue.undefined (JSValue.str "2") (JSValue.str "2")
        = SearchResponse.ok
            (searchFiltered
              [⟨1, "a", none, none, none, 1, 5⟩, ⟨2, "b", none, none, none, 1, 9⟩,
               ⟨3, "c", none, none, none, 1, 7⟩, ⟨4, "d", none, none, none, 1, 3⟩,
               ⟨5, "e", none, none, none, 1, 8⟩] JSValue.undefined).length
            (ceilDiv (searchFiltered
              [⟨1, "a", none, none, none, 1, 5⟩, ⟨2, "b", none, none, none, 1, 9⟩,
               ⟨3, "c", none, none, none, 1, 7⟩, ⟨4, "d", none, none, none, 1, 3⟩,
               ⟨5, "e", none, none, none, 1, 8⟩] JSValue.undefined).length 2)
            ((2 : Nat) : Int)
            ((((searchSorted
              [⟨1, "a", none, none, none, 1, 5⟩, ⟨2, "b", none, none, none, 1, 9⟩,
               ⟨3, "c", none, none, none, 1, 7⟩, ⟨4, "d", none, none, none, 1, 3⟩,
               ⟨5, "e", none, none, none, 1, 8⟩] JSValue.undefined).drop ((2 - 1) * 2)).take 2).map
              toSearchRow))
      ∧ (∀ i : Nat,
          ((((searchSorted
              [⟨1, "a", none, none, none, 1, 5⟩, ⟨2, "b", none, none, none, 1, 9⟩,
               ⟨3, "c", none, none, none, 1, 7⟩, ⟨4, "d", none, none, none, 1, 3⟩,
               ⟨5, "e", none, none, none, 1, 8⟩] JSValue.undefined).drop ((2 - 1) * 2)).take 2).map
              toSearchRow)[i]?
            = if i < 2
              then ((searchSorted
                [⟨1, "a", none, none, none, 1, 5⟩, ⟨2, "b", none, none, none, 1, 9⟩,
                 ⟨3, "c", none, none, none, 1, 7⟩, ⟨4, "d", none, none, none, 1, 3⟩,
                 ⟨5, "e", none, none, none, 1, 8⟩] JSValue.undefined).map toSearchRow)[(2 - 1) * 2 + i]?
              else none)
      ∧ (searchFiltered
            [⟨1, "a", none, none, none, 1, 5⟩, ⟨2, "b", none, none, none, 1, 9⟩,
             ⟨3, "c", none, none, none, 1, 7⟩, ⟨4, "d", none, none, none, 1, 3⟩,
             ⟨5, "e", none, none, none, 1, 8⟩] JSValue.undefined).length
          ≤ 2 * ceilDiv (searchFiltered
            [⟨1, "a", none, none, none, 1, 5⟩, ⟨2, "b", none, none, none, 1, 9⟩,
             ⟨3, "c", none, none, none, 1, 7⟩, ⟨4, "d", none, none, none, 1, 3⟩,
             ⟨5, "e", none, none, none, 1, 8⟩] JSValue.undefined).length 2
      ∧ 2 * ceilDiv (searchFiltered
            [⟨1, "a", none, none, none, 1, 5⟩, ⟨2, "b", none, none, none, 1, 9⟩,
             ⟨3, "c", none, none, none, 1, 7⟩, ⟨4, "d", none, none, none, 1, 3⟩,
             ⟨5, "e", none, none, none, 1, 8⟩] JSValue.undefined).length 2
          < (searchFiltered
            [⟨1, "a", none, none, none, 1, 5⟩, ⟨2, "b", none, none, none, 1, 9⟩,
             ⟨3, "c", none, none, none, 1, 7⟩, ⟨4, "d", none, none, none, 1, 3⟩,
             ⟨5, "e", none, none, none, 1, 8⟩] JSValue.undefined).length + 2 :=
  c7_search_pagination
    [⟨1, "a", none, none, none, 1, 5⟩, ⟨2, "b", none, none, none, 1, 9⟩,
     ⟨3, "c", none, none, none, 1, 7⟩, ⟨4, "d", none, none, none, 1, 3⟩,
     ⟨5, "e", none, none, none, 1, 8⟩]
    JSValue.undefined "2" "2" 2 2 (by decide) (by decide) (by decide) (by decide)
    (by decide) (by decide) (by decide) (by decide) (by decide) (by decide)

/-! ## C4: the analytics pivot -/

/-- The code-unit string order is total. -/
theorem charListLe_total : ∀ x y : List Char, charListLe x y = true ∨ charListLe y x = true := by
  intro x
  induction x with
  | nil => intro y; left; rfl
  | cons a as ih =>
    intro y
    cases y with
    | nil => right; rfl
    | cons b bs =>
      by_cases hab : a.toNat = b.toNat
      · rcases ih bs with h | h
        · left
          simp [charListLe, hab, h]
        · right
          have hba : b.toNat = a.toNat := hab.symm
          simp [charListLe, hba, h]
      · by_cases hlt : a.toNat < b.toNat
        · left
          simp [charListLe, hab, hlt]
        · right
          have hba : ¬ b.toNat = a.toNat := by omega
          have : b.toNat < a.toNat := by omega
          simp [charListLe, hba, this]

/-- The code-unit string order is transitive. -/
theorem charListLe_trans : ∀ x y z : List Char, charListLe x y = true →
    charListLe y z = true → charListLe x z = true := by
  intro x
  induction x with
  | nil => intro y z _ _; rfl
  | cons a as ih =>
    intro y z hxy hyz
    cases y with
    | nil => simp [charListLe] at hxy
    | cons b bs =>
      cases z with
      | nil => simp [charListLe] at hyz
      | cons c cs =>
        by_cases hab : a.toNat = b.toNat
        · by_cases hbc : b.toNat = c.toNat
          · have hac : a.toNat = c.toNat := by omega
            simp only [charListLe, hab, hbc, if_true, hac] at hxy hyz ⊢
            exact ih bs cs hxy hyz
          · simp only [charListLe] at hyz
            rw [if_neg hbc] at hyz
            have hyz' : b.toNat < c.toNat := by simpa using hyz
            have hac : ¬ a.toNat = c.toNat := by omega
            simp only [charListLe]
            rw [if_neg hac]
            simp only [decide_eq_true_eq]
            omega
        · simp only [charListLe] at hxy
          rw [if_neg hab] at hxy
          have hxy' : a.toNat < b.toNat := by simpa using hxy
          by_cases hbc : b.toNat = c.toNat
          · have hac : ¬ a.toNat = c.toNat := by omega
            simp only [charListLe]
            rw [if_neg hac]
            simp only [decide_eq_true_eq]
            omega
          · simp only [charListLe] at hyz
            rw [if_neg hbc] at hyz
            have hyz' : b.toNat < c.toNat := by simpa using hyz
            have hac : ¬ a.toNat = c.toNat := by omega
            simp only [charListLe]
            rw [if_neg hac]
            simp only [decide_eq_true_eq]
            omega

instance : IsTotal Nat natStrLe :=
  ⟨fun a b => charListLe_total (toString a).data (toString b).data⟩

instance : IsTrans Nat natStrLe :=
  ⟨fun _ _ _ hab hbc => charListLe_trans _ _ _ hab hbc⟩

/-- With duplicate-free years, the year filter for a present row keeps
exactly that row. -/
theorem filter_eq_single_of_nodup_year {data : List ElectionResultRow}
    (hnd : (data.map (·.electionyear)).Nodup) (r : ElectionResultRow) (hr : r ∈ data) :
    data.filter (fun x => x.electionyear = r.electionyear) = [r] := by
  induction data with
  | nil => cases hr
  | cons a t ih =>
    simp only [List.map_cons, List.nodup_cons] at hnd
    rcases hnd with ⟨hna, hnt⟩
    rcases List.mem_cons.mp hr with rfl | hrt
    · simp only [List.filter_cons]
      rw [if_pos (by simp)]
      have hft : t.filter (fun x => x.electionyear = r.electionyear) = [] := by
        apply List.filter_eq_nil_iff.mpr
        intro x hx
        simp only [decide_eq_true_eq]
        intro he
        exact hna (by rw [← he]; exact List.mem_map_of_mem _ hx)
      rw [hft]
    · have hne : ¬ (a.electionyear = r.electionyear) := by
        intro he
        exact hna (he ▸ List.mem_map_of_mem (·.electionyear) hrt)
      simp only [List.filter_cons]
      rw [if_neg (by simpa using hne)]
      exact ih hnt hrt

/-- Association lookup over pairs built from a duplicate-free key list. -/
theorem lookup_map_pairs {β : Type} (g : Nat → β) :
    ∀ (l : List Nat), l.Nodup → ∀ y ∈ l,
      (l.map (fun x => (x, g x))).lookup y = some (g y) := by
  intro l
  induction l with
  | nil => intro _ y hy; cases hy
  | cons a t ih =>
    intro hnd y hy
    rcases List.mem_cons.mp hy with rfl | hyt
    · simp [List.lookup]
    · have hya : y ≠ a := by
        rintro rfl
        exact (List.nodup_cons.mp hnd).1 hyt
      have hb : (y == a) = false := beq_eq_false_iff_ne.mpr hya
      simp only [List.map_cons, List.lookup, hb]
      exact ih (List.nodup_cons.mp hnd).2 y hyt

/-- In the per-party `years` object, a row with a unique year reads back as
`jsSeatVal` of its seat column (0 and null both null, anything else kept). -/
theorem yearsObject_lookup (key : String) (data : List ElectionResultRow)
    (hnd : (data.map (·.electionyear)).Nodup) (r : ElectionResultRow) (hr : r ∈ data) :
    (yearsObject key data).lookup r.electionyear
      = some (jsSeatVal (getSeatField r key)) := by
  unfold yearsObject
  have hmem : r.electionyear ∈ List.insertionSort natAsc ((data.map (·.electionyear)).dedup) := by
    rw [(List.perm_insertionSort natAsc _).mem_iff]
    exact List.mem_dedup.mpr (List.mem_map_of_mem _ hr)
  have hnd2 : (List.insertionSort natAsc ((data.map (·.electionyear)).dedup)).Nodup :=
    ((List.perm_insertionSort natAsc _).nodup_iff).mpr (List.nodup_dedup _)
  rw [lookup_map_pairs _ _ hnd2 r.electionyear hmem]
  rw [filter_eq_single_of_nodup_year hnd r hr]
  rfl

/-- A one-party, one-year AC result row (other seat columns null). -/
def acOnlyRow (y : Nat) (b : Option Int) : ElectionResultRow :=
  ⟨"p", y, "AC", b, none, none, none, none, none, none, none⟩

/-- Counterexample to C4 as stated: with result rows in years 999 and 1000
the response's `years` list is `[1000, 999]` — the comparator-less JS
`sort()` orders the decimal strings, and `"1000" < "999"` — so the claim's
"sorted distinct set of years" fails (it is distinct but not numerically
sorted). -/
theorem c4_counterexample :
    analyticsYears (getPositionWiseAnalytics [acOnlyRow 999 (some 1), acOnlyRow 1000 (some 2)]
        (JSValue.str "p")) = [1000, 999]
      ∧ ¬ List.Sorted (fun a b : Nat => a ≤ b) [1000, 999] := by
  constructor
  · decide
  · decide

/-- C4 (amended): for a present position with matching rows, the endpoint
answers 200 with the upper-cased position; the pivot partitions the rows by
`electionname` into the AC and PE series groups, produces one series per
tracked party in the fixed order BJP, INC, BSP, JCCJ, GGP, CPI, AAP, OTHER,
and (for duplicate-free years, the data invariant) each row's seat value is
read back through `jsSeatVal` — null and 0 become null, any other value is
kept, so a row with `bjp_seat = 45, inc_seat = null` yields 45 in the BJP
series and null in the INC series; the `years` list is the distinct set of
years present, ordered lexicographically by decimal string form (the
comparator-less JS sort), which agrees with numeric order exactly when all
years have equally many digits. -/
theorem c4_analytics_pivot_amended (db : List ElectionResultRow) (p : String)
    (hp : p ≠ "") (hne : resultsOf db p ≠ [])
    (hndAC : ((acRowsOf db p).map (·.electionyear)).Nodup)
    (hndPE : ((peRowsOf db p).map (·.electionyear)).Nodup) :
    getPositionWiseAnalytics db (JSValue.str p)
        = .ok (jsToUpper p) (transformData (acRowsOf db p))
            (transformData (peRowsOf db p)) (yearsListOf db p)
      ∧ (transformData (acRowsOf db p)).map (·.party)
          = ["BJP", "INC", "BSP", "JCCJ", "GGP", "CPI", "AAP", "OTHER"]
      ∧ (transformData (peRowsOf db p)).map (·.party)
          = ["BJP", "INC", "BSP", "JCCJ", "GGP", "CPI", "AAP", "OTHER"]
      ∧ (∀ pd ∈ partyDefs, ∀ r ∈ acRowsOf db p,
          (yearsObject pd.key (acRowsOf db p)).lookup r.electionyear
            = some (jsSeatVal (getSeatField r pd.key)))
      ∧ (∀ pd ∈ partyDefs, ∀ r ∈ peRowsOf db p,
          (yearsObject pd.key (peRowsOf db p)).lookup r.electionyear
            = some (jsSeatVal (getSeatField r pd.key)))
      ∧ List.Sorted natStrLe (yearsListOf db p)
      ∧ (yearsListOf db p).Nodup
      ∧ (∀ y, y ∈ yearsListOf db p ↔ y ∈ (resultsOf db p).map (·.electionyear)) := by
  refine ⟨?_, by simp [transformData, partyDefs], by simp [transformData, partyDefs],
    ?_, ?_, ?_, ?_, ?_⟩
  · unfold getPositionWiseAnalytics
    simp [jsTruthy, hp, jsToString, hne]
  · intro pd _ r hr
    exact yearsObject_lookup pd.key _ hndAC r hr
  · intro pd _ r hr
    exact yearsObject_lookup pd.key _ hndPE r hr
  · exact List.sorted_insertionSort natStrLe _
  · exact ((List.perm_insertionSort natStrLe _).nodup_iff).mpr (List.nodup_dedup _)
  · intro y
    unfold yearsListOf
    rw [(List.perm_insertionSort natStrLe _).mem_iff, List.mem_dedup]

/-- Witness for C4 amended: one AC row, year 2018, `bjp_seat = 45`,
`inc_seat = null`. -/
theorem c4_witness :
    getPositionWiseAnalytics [acOnlyRow 2018 (some 45)] (JSValue.str "p")
        = .ok (jsToUpper "p") (transformData (acRowsOf [acOnlyRow 2018 (some 45)] "p"))
            (transformData (peRowsOf [acOnlyRow 2018 (some 45)] "p"))
            (yearsListOf [acOnlyRow 2018 (some 45)] "p")
      ∧ (transformData (acRowsOf [acOnlyRow 2018 (some 45)] "p")).map (·.party)
          = ["BJP", "INC", "BSP", "JCCJ", "GGP", "CPI", "AAP", "OTHER"]
      ∧ (transformData (peRowsOf [acOnlyRow 2018 (some 45)] "p")).map (·.party)
          = ["BJP", "INC", "BSP", "JCCJ", "GGP", "CPI", "AAP", "OTHER"]
      ∧ (∀ pd ∈ partyDefs, ∀ r ∈ acRowsOf [acOnlyRow 2018 (some 45)] "p",
          (yearsObject pd.key (acRowsOf [acOnlyRow 2018 (some 45)] "p")).lookup r.electionyear
            = some (jsSeatVal (getSeatField r pd.key)))
      ∧ (∀ pd ∈ partyDefs, ∀ r ∈ peRowsOf [acOnlyRow 2018 (some 45)] "p",
          (yearsObject pd.key (peRowsOf [acOnlyRow 2018 (some 45)] "p")).lookup r.electionyear
            = some (jsSeatVal (getSeatField r pd.key)))
      ∧ List.Sorted natStrLe (yearsListOf [acOnlyRow 2018 (some 45)] "p")
      ∧ (yearsListOf [acOnlyRow 2018 (some 45)] "p").Nodup
      ∧ (∀ y, y ∈ yearsListOf [acOnlyRow 2018 (some 45)] "p"
          ↔ y ∈ (resultsOf [acOnlyRow 2018 (some 45)] "p").map (·.electionyear)) :=
  c4_analytics_pivot_amended [acOnlyRow 2018 (some 45)] "p" (by decide) (by decide)
    (by decide) (by decide)

end PaperBackend
